import Mathlib

/-!
# AccelByte SDK: the websocket protocol handlers

A shallow embedding of the two websocket protocol handlers of the SDK and of the session REST
calls:

* `AccelByte.Api` : the `Chat` client (`Public/Api/AccelByteChatApi.h`).  The header declares
  the envelope framer, the pending-response maps, the backoff members and the delegate slots,
  and defines the delegate setters inline; the setters are embedded from their code.  The bodies
  of `ProcessFragmentedMessage`, `OnMessage`, `SendWebSocketContent` and of the tick and
  reconnect code are not part of the sources at hand, so they are modelled from the
  specification and marked as such.
* `AccelByte.GameServerApi` : the `ServerAMS` handler
  (`Private/GameServerApi/AccelByteServerAMSApi.cpp`), embedded from its code, with the
  transport socket and the JSON reader of the engine as parameters, and the three REST calls of
  `ServerSession` (`Private/GameServerApi/AccelByteServerSessionApi.cpp`), embedded from their
  code as the requests they hand to the HTTP transport.

An `FString` is embedded as a `List Char` where its characters matter (the framer) and as a
`String` where it is only stored and compared (message ids, settings).  Log output (`UE_LOG`, `FReport::Log`) is not part of
the embedding.
-/

namespace AccelByte
namespace Api

/-! ## Envelope framer -/

/-- The member `Chat::WsEnvelopeStart`, initialised to "CaSr" (AccelByteChatApi.h:237). -/
def WsEnvelopeStart : List Char := ['C', 'a', 'S', 'r']

/-- The member `Chat::WsEnvelopeEnd`, initialised to "CaEd" (AccelByteChatApi.h:238). -/
def WsEnvelopeEnd : List Char := ['C', 'a', 'E', 'd']

/-- The four ways the framer's contract reads a raw frame. -/
inductive FrameKind where
  | Complete
  | First
  | Final
  | Middle
  deriving DecidableEq, Repr

/-- Modelled from the spec: the case analysis of `Chat::ProcessFragmentedMessage`, whose body is
not in the sources (only its declaration, AccelByteChatApi.h:220).  The spec's four cases, in its
order: begins with the start marker, ends with the end marker and is long enough to hold both
distinctly; begins with the start marker but does not end with the end marker; does not begin
with the start marker and ends with the end marker; otherwise. -/
def ClassifyFrame (InMessage InEnvelopeStart InEnvelopeEnd : List Char) : FrameKind :=
  if InEnvelopeStart <+: InMessage ∧ InEnvelopeEnd <:+ InMessage
      ∧ InEnvelopeStart.length + InEnvelopeEnd.length ≤ InMessage.length then
    FrameKind.Complete
  else if InEnvelopeStart <+: InMessage ∧ ¬ InEnvelopeEnd <:+ InMessage then
    FrameKind.First
  else if ¬ InEnvelopeStart <+: InMessage ∧ InEnvelopeEnd <:+ InMessage then
    FrameKind.Final
  else
    FrameKind.Middle

/-- The three reference parameters of `Chat::ProcessFragmentedMessage` after the call. -/
structure FragmentResult where
  InOutEnvelopeBuffer : List Char
  OutMessage : List Char
  OutIsMessageEnd : Bool
  deriving DecidableEq, Repr

/-- Modelled from the spec: `Chat::ProcessFragmentedMessage`, whose body is not in the sources
(only its declaration, AccelByteChatApi.h:220).  Per the spec's contract of `processFragment`:
a complete frame has both markers stripped and is returned, the buffer untouched; a first
fragment stores the content after the start marker into the buffer; a final fragment appends the
content before the end marker to the buffer, returns the buffered content and clears the buffer;
any other frame is appended whole to the buffer.  The spec does not say what `OutMessage` holds
after an incomplete call; it is the empty string here and no result below depends on it. -/
def ProcessFragmentedMessage (InMessage InEnvelopeStart InEnvelopeEnd : List Char)
    (InOutEnvelopeBuffer : List Char) : FragmentResult :=
  match ClassifyFrame InMessage InEnvelopeStart InEnvelopeEnd with
  | FrameKind.Complete =>
      { InOutEnvelopeBuffer := InOutEnvelopeBuffer
        OutMessage := (InMessage.drop InEnvelopeStart.length).take
          (InMessage.length - InEnvelopeStart.length - InEnvelopeEnd.length)
        OutIsMessageEnd := true }
  | FrameKind.First =>
      { InOutEnvelopeBuffer := InMessage.drop InEnvelopeStart.length
        OutMessage := []
        OutIsMessageEnd := false }
  | FrameKind.Final =>
      { InOutEnvelopeBuffer := []
        OutMessage := InOutEnvelopeBuffer ++ InMessage.take (InMessage.length - InEnvelopeEnd.length)
        OutIsMessageEnd := true }
  | FrameKind.Middle =>
      { InOutEnvelopeBuffer := InOutEnvelopeBuffer ++ InMessage
        OutMessage := []
        OutIsMessageEnd := false }

/-- Feeding a sequence of raw frames to the framer, the way the message handler does with the
member `EnvelopeContentBuffer`: the buffer left by one call is the buffer of the next.  Returns
the final buffer and, per frame, the pair `(OutMessage, OutIsMessageEnd)`. -/
def FeedFrames (InEnvelopeStart InEnvelopeEnd : List Char) :
    List Char → List (List Char) → List Char × List (List Char × Bool)
  | Buffer, [] => (Buffer, [])
  | Buffer, Frame :: Rest =>
      let R := ProcessFragmentedMessage Frame InEnvelopeStart InEnvelopeEnd Buffer
      let Out := FeedFrames InEnvelopeStart InEnvelopeEnd R.InOutEnvelopeBuffer Rest
      (Out.1, (R.OutMessage, R.OutIsMessageEnd) :: Out.2)

/-! ## Request correlator -/

/-- The response kinds of the Chat service: one per `MessageId...ResponseMap` member of `Chat`
(AccelByteChatApi.h:819-836), in the order of their declaration. -/
inductive ResponseKind where
  | CreateTopic
  | SendChat
  | QueryTopic
  | QueryTopicById
  | QueryPersonalTopic
  | QueryGroupTopic
  | QueryPublicTopic
  | QueryChat
  | ReadChat
  | UpdateTopic
  | DeleteTopic
  | AddUserToTopic
  | RemoveUserFromTopic
  | JoinTopic
  | QuitTopic
  | RefreshToken
  | BlockUser
  | UnblockUser
  deriving DecidableEq, Repr

/-- A `TMap<FString, V>` of the engine: a list of key/value entries, at most one per key when
built by `TMap.Add`. -/
abbrev TMap (V : Type) := List (String × V)

/-- The value stored under a key, as `TMap::Find`. -/
def TMap.Find {V : Type} (Key : String) : TMap V → Option V
  | [] => none
  | (K, Value) :: Rest => if K = Key then some Value else TMap.Find Key Rest

/-- Removal of a key, as `TMap::Remove`. -/
def TMap.Remove {V : Type} (Key : String) (Map : TMap V) : TMap V :=
  Map.filter (fun Entry => decide (Entry.1 ≠ Key))

/-- Insertion of a key, as `TMap::Add`: an entry already stored under the key is replaced. -/
def TMap.Add {V : Type} (Key : String) (Value : V) (Map : TMap V) : TMap V :=
  (Key, Value) :: TMap.Remove Key Map

/-- The eighteen members `MessageId...ResponseMap` of `Chat`, as one map per response kind;
`κ` is the type of the delegates they store. -/
abbrev PendingMaps (κ : Type) := ResponseKind → TMap κ

/-- The pending maps of a freshly constructed `Chat`: all empty. -/
def PendingMaps.Empty (κ : Type) : PendingMaps κ := fun _ => []

/-- A delegate executed by the message handler: a success delegate with the parsed payload, or
an error delegate with an error code and message. -/
inductive Invocation (κ π : Type) where
  | Success (OnSuccess : κ) (Payload : π)
  | Error (OnError : κ) (Code : Int) (Message : String)
  deriving DecidableEq, Repr

/-- A request as the correlator sees it: its response kind (method family), the message id
generated for it and the caller's success delegate. -/
structure Request (κ : Type) where
  Kind : ResponseKind
  MessageId : String
  OnSuccess : κ
  deriving DecidableEq, Repr

/-- An inbound message already parsed and classified as a response: its kind, the `id` field
and the parsed payload. -/
structure Response (π : Type) where
  Kind : ResponseKind
  MessageId : String
  Payload : π
  deriving DecidableEq, Repr

/-- Modelled from the spec: the registration done by the spec's `send` (the request methods of
`Chat` around `SendWebSocketContent`, whose bodies are not in the sources): the success delegate
is registered in the map of the request's method family under the request's message id.  The id
is the one `GenerateMessageID` produced for the request; the transmitted envelope plays no part
in the correlation and is not modelled. -/
def Send {κ : Type} (Maps : PendingMaps κ) (R : Request κ) : PendingMaps κ :=
  fun Kind => if Kind = R.Kind then TMap.Add R.MessageId R.OnSuccess (Maps Kind) else Maps Kind

/-- Modelled from the spec: the response branch of `Chat::OnMessage`, whose body is not in the
sources: the entry of the response's id in the pending map of its kind is looked up and removed
and its success delegate is invoked with the parsed payload; if no entry matches the id the
message is dropped silently. -/
def OnResponse {κ π : Type} (Maps : PendingMaps κ) (R : Response π) :
    PendingMaps κ × List (Invocation κ π) :=
  match TMap.Find R.MessageId (Maps R.Kind) with
  | some OnSuccess =>
      (fun Kind => if Kind = R.Kind then TMap.Remove R.MessageId (Maps Kind) else Maps Kind,
       [Invocation.Success OnSuccess R.Payload])
  | none => (Maps, [])

/-- Sending a sequence of requests, in order. -/
def SendAll {κ : Type} : PendingMaps κ → List (Request κ) → PendingMaps κ
  | Maps, [] => Maps
  | Maps, R :: Rest => SendAll (Send Maps R) Rest

/-- Delivering a sequence of responses, in order; returns the pending maps afterwards and the
delegates invoked, in order. -/
def DeliverAll {κ π : Type} :
    PendingMaps κ → List (Response π) → PendingMaps κ × List (Invocation κ π)
  | Maps, [] => (Maps, [])
  | Maps, R :: Rest =>
      ((DeliverAll (OnResponse Maps R).1 Rest).1,
       (OnResponse Maps R).2 ++ (DeliverAll (OnResponse Maps R).1 Rest).2)

/-- The response that answers a request with a given payload: same kind, same id. -/
def ResponseTo {κ π : Type} (E : Request κ × π) : Response π :=
  { Kind := E.1.Kind, MessageId := E.1.MessageId, Payload := E.2 }

/-- The invocation a request is owed once answered: its own success delegate with the payload of
its response. -/
def Owed {κ π : Type} (E : Request κ × π) : Invocation κ π :=
  Invocation.Success E.1.OnSuccess E.2


/-- The pending maps hold exactly the entries of the outstanding requests `E`, each in the map
of its kind. -/
def Holds {κ π : Type} (Maps : PendingMaps κ) (E : List (Request κ × π)) : Prop :=
  ∀ Kind, (Maps Kind).Perm
    ((E.filter (fun e => decide (e.1.Kind = Kind))).map (fun e => (e.1.MessageId, e.1.OnSuccess)))

/-! ## Reconnect backoff -/

/-- The timing arguments of the constructor `Chat::Chat` (AccelByteChatApi.h:41-49), which
become the members `PingDelay`, `InitialBackoffDelay`, `MaxBackoffDelay` and `TotalTimeout`.
They are floats counting seconds in the source; here a time is a whole number of time units. -/
structure BackoffSettings where
  PingDelay : Nat
  InitialBackoffDelay : Nat
  MaxBackoffDelay : Nat
  TotalTimeout : Nat
  deriving DecidableEq, Repr

/-- The default arguments of the constructor `Chat::Chat` (AccelByteChatApi.h:45-48), in
seconds. -/
def BackoffSettings.Default : BackoffSettings :=
  { PingDelay := 30, InitialBackoffDelay := 1, MaxBackoffDelay := 30, TotalTimeout := 60 }

/-- Modelled from the spec: the four states of the spec's Connection.  The code that moves
`Chat` between them is not in the sources. -/
inductive ConnectionState where
  | Disconnected
  | Connecting
  | Connected
  | Reconnecting
  deriving DecidableEq, Repr

/-- Modelled from the spec: the reconnect attributes of the spec's Connection: its state, the
current backoff delay, the randomized jitter offset, the elapsed time since the last reconnect
attempt and the elapsed time since the connection was lost (the members declared at
AccelByteChatApi.h:229-233, whose use is in code that is not in the sources). -/
structure Connection where
  State : ConnectionState
  BackoffDelay : Nat
  Jitter : Nat
  TimeSinceLastReconnect : Nat
  TimeSinceConnectionLost : Nat
  deriving DecidableEq, Repr

/-- Modelled from the spec: a new connection (the constructor's body is not in the sources):
disconnected, and "delay starts at InitialBackoffDelay". -/
def Connection.New (C : BackoffSettings) : Connection :=
  { State := ConnectionState.Disconnected
    BackoffDelay := C.InitialBackoffDelay
    Jitter := 0
    TimeSinceLastReconnect := 0
    TimeSinceConnectionLost := 0 }

/-- Modelled from the spec: the caller's `connect()` (`Chat::Connect`, body not in the sources):
a no-op if already connecting or connected; otherwise a connection is initiated. -/
def Connection.Connect (S : Connection) : Connection :=
  match S.State with
  | ConnectionState.Connected => S
  | ConnectionState.Connecting => S
  | _ => { S with State := ConnectionState.Connecting }

/-- Modelled from the spec: the transport's connected event (`Chat::OnConnected`, body not in the
sources): "reset backoff delay to the initial configured value, reset reconnect/connection-loss
timers". -/
def Connection.OnConnected (C : BackoffSettings) (S : Connection) : Connection :=
  { State := ConnectionState.Connected
    BackoffDelay := C.InitialBackoffDelay
    Jitter := S.Jitter
    TimeSinceLastReconnect := 0
    TimeSinceConnectionLost := 0 }

/-- Modelled from the spec: the loss of a connection that was established or being established
(the transport's closed event in `Chat::OnClosed`, body not in the sources): "begin backoff-based
reconnect sequence", with the jitter drawn for the first wait. -/
def Connection.OnConnectionLost (Jitter : Nat) (S : Connection) : Connection :=
  match S.State with
  | ConnectionState.Connected =>
      { S with State := ConnectionState.Reconnecting, Jitter := Jitter }
  | ConnectionState.Connecting =>
      { S with State := ConnectionState.Reconnecting, Jitter := Jitter }
  | _ => S

/-- Modelled from the spec: a reconnect attempt that failed (code not in the sources): "after
each failed attempt, delay doubles up to MaxBackoffDelay", and a jitter is drawn for the next
wait. -/
def Connection.OnAttemptFailed (C : BackoffSettings) (Jitter : Nat) (S : Connection) :
    Connection :=
  match S.State with
  | ConnectionState.Reconnecting =>
      { S with BackoffDelay := min (2 * S.BackoffDelay) C.MaxBackoffDelay, Jitter := Jitter }
  | _ => S

/-- Modelled from the spec: the host's tick with the elapsed time (code not in the sources).
Only a reconnecting connection reacts: the elapsed times advance; once the time since the
connection was lost exceeds TotalTimeout the connection gives up; otherwise, once the time since
the last attempt passes the actual wait, "delay plus a small random jitter", connect is invoked
on the transport and the time since the last attempt starts again.  Returns the connection and
the number of connect invocations made by this tick.  The keep-alive ping is not modelled. -/
def Connection.Tick (C : BackoffSettings) (DeltaTime : Nat) (S : Connection) : Connection × Nat :=
  match S.State with
  | ConnectionState.Reconnecting =>
      if S.TimeSinceConnectionLost + DeltaTime > C.TotalTimeout then
        ({ S with
            State := ConnectionState.Disconnected
            TimeSinceLastReconnect := S.TimeSinceLastReconnect + DeltaTime
            TimeSinceConnectionLost := S.TimeSinceConnectionLost + DeltaTime }, 0)
      else if S.TimeSinceLastReconnect + DeltaTime > S.BackoffDelay + S.Jitter then
        ({ S with
            TimeSinceLastReconnect := 0
            TimeSinceConnectionLost := S.TimeSinceConnectionLost + DeltaTime }, 1)
      else
        ({ S with
            TimeSinceLastReconnect := S.TimeSinceLastReconnect + DeltaTime
            TimeSinceConnectionLost := S.TimeSinceConnectionLost + DeltaTime }, 0)
  | _ => (S, 0)

/-- A sequence of ticks, in order: the connection afterwards and the number of connect
invocations made on the transport. -/
def Connection.TickAll (C : BackoffSettings) : Connection → List Nat → Connection × Nat
  | S, [] => (S, 0)
  | S, DeltaTime :: Rest =>
      ((Connection.TickAll C (Connection.Tick C DeltaTime S).1 Rest).1,
       (Connection.Tick C DeltaTime S).2
         + (Connection.TickAll C (Connection.Tick C DeltaTime S).1 Rest).2)

/-- What can happen to a connection. -/
inductive ConnectionEvent where
  | Connect
  | OnConnected
  | OnConnectionLost (Jitter : Nat)
  | OnAttemptFailed (Jitter : Nat)
  | Tick (DeltaTime : Nat)
  deriving DecidableEq, Repr

/-- One event on a connection. -/
def Connection.Step (C : BackoffSettings) (S : Connection) : ConnectionEvent → Connection
  | ConnectionEvent.Connect => Connection.Connect S
  | ConnectionEvent.OnConnected => Connection.OnConnected C S
  | ConnectionEvent.OnConnectionLost Jitter => Connection.OnConnectionLost Jitter S
  | ConnectionEvent.OnAttemptFailed Jitter => Connection.OnAttemptFailed C Jitter S
  | ConnectionEvent.Tick DeltaTime => (Connection.Tick C DeltaTime S).1

/-- A sequence of events on a connection, in order. -/
def Connection.Run (C : BackoffSettings) : Connection → List ConnectionEvent → Connection
  | S, [] => S
  | S, E :: Rest => Connection.Run C (Connection.Step C S E) Rest

/-- The tick time accumulated by a sequence of events: the sum of the elapsed times of its
ticks. -/
def ConnectionEvent.TickTime : List ConnectionEvent → Nat
  | [] => 0
  | ConnectionEvent.Tick DeltaTime :: Rest => DeltaTime + ConnectionEvent.TickTime Rest
  | _ :: Rest => ConnectionEvent.TickTime Rest

/-! ## Delegate slots of `Chat` -/

/-- The delegate members of `Chat` and its pending maps: the connection delegates
(AccelByteChatApi.h:241-245), the maps `MessageId...ResponseMap` as one map per response kind
(819-836), the response slots (838-855), the error slots (857-874) and the notification slots
(876-883).  `δ` is the type of a delegate value, bound or not. -/
structure Chat (δ : Type) where
  ConnectSuccess : δ
  ConnectError : δ
  ParsingError : δ
  DisconnectNotif : δ
  ConnectionClosed : δ
  MessageIdResponseMap : PendingMaps δ
  CreateTopicResponse : δ
  SendChatResponse : δ
  QueryTopicResponse : δ
  QueryTopicByIdResponse : δ
  QueryPersonalTopicResponse : δ
  QueryGroupTopicResponse : δ
  QueryPublicTopicResponse : δ
  QueryChatResponse : δ
  ReadChatResponse : δ
  UpdateTopicResponse : δ
  DeleteTopicResponse : δ
  AddUserToTopicResponse : δ
  RemoveUserFromTopicResponse : δ
  JoinTopicResponse : δ
  QuitTopicResponse : δ
  RefreshTokenResponse : δ
  BlockUserResponse : δ
  UnblockUserResponse : δ
  OnCreateTopicError : δ
  OnSendChatError : δ
  OnQueryTopicError : δ
  OnQueryTopicByIdError : δ
  OnQueryPersonalTopicError : δ
  OnQueryGroupTopicError : δ
  OnQueryPublicTopicError : δ
  OnQueryChatError : δ
  OnReadChatError : δ
  OnUpdateTopicError : δ
  OnDeleteTopicError : δ
  OnAddUserToTopicError : δ
  OnRemoveUserFromTopicError : δ
  OnJoinTopicError : δ
  OnQuitTopicError : δ
  OnRefreshTokenError : δ
  OnBlockUserError : δ
  OnUnblockUserError : δ
  ChatNotif : δ
  ReadChatNotif : δ
  AddToTopicNotif : δ
  RemoveFromTopicNotif : δ
  DeleteTopicNotif : δ
  UpdateTopicNotif : δ
  UserBanNotif : δ
  UserUnbanNotif : δ

/-- The member function `Chat::SetChatNotifDelegate` (AccelByteChatApi.h:751-754):
`ChatNotif = Delegate`. -/
def Chat.SetChatNotifDelegate {δ : Type} (Delegate : δ) (C : Chat δ) : Chat δ :=
  { C with ChatNotif := Delegate }

/-- The member function `Chat::SetAddToTopicNotifDelegate` (AccelByteChatApi.h:759-762):
`AddToTopicNotif = Delegate`. -/
def Chat.SetAddToTopicNotifDelegate {δ : Type} (Delegate : δ) (C : Chat δ) : Chat δ :=
  { C with AddToTopicNotif := Delegate }

/-- The member function `Chat::SetRemoveFromTopicNotifDelegate` (AccelByteChatApi.h:767-770):
`RemoveFromTopicNotif = Delegate`. -/
def Chat.SetRemoveFromTopicNotifDelegate {δ : Type} (Delegate : δ) (C : Chat δ) : Chat δ :=
  { C with RemoveFromTopicNotif := Delegate }

/-- The member function `Chat::SetDeleteTopicNotifDelegate` (AccelByteChatApi.h:775-778):
`DeleteTopicNotif = Delegate`. -/
def Chat.SetDeleteTopicNotifDelegate {δ : Type} (Delegate : δ) (C : Chat δ) : Chat δ :=
  { C with DeleteTopicNotif := Delegate }

/-- The member function `Chat::SetUpdateTopicNotifDelegate` (AccelByteChatApi.h:783-786):
`UpdateTopicNotif = Delegate`. -/
def Chat.SetUpdateTopicNotifDelegate {δ : Type} (Delegate : δ) (C : Chat δ) : Chat δ :=
  { C with UpdateTopicNotif := Delegate }

/-- The member function `Chat::SetReadChatNotifDelegate` (AccelByteChatApi.h:791-794):
`ReadChatNotif = Delegate`. -/
def Chat.SetReadChatNotifDelegate {δ : Type} (Delegate : δ) (C : Chat δ) : Chat δ :=
  { C with ReadChatNotif := Delegate }

/-- The member function `Chat::SetUserBanNotifDelegate` (AccelByteChatApi.h:799-802):
`UserBanNotif = Delegate`. -/
def Chat.SetUserBanNotifDelegate {δ : Type} (Delegate : δ) (C : Chat δ) : Chat δ :=
  { C with UserBanNotif := Delegate }

/-- The member function `Chat::SetUserUnbanNotifDelegate` (AccelByteChatApi.h:807-810):
`UserUnbanNotif = Delegate`. -/
def Chat.SetUserUnbanNotifDelegate {δ : Type} (Delegate : δ) (C : Chat δ) : Chat δ :=
  { C with UserUnbanNotif := Delegate }

/-- The member function `Chat::SetRefreshTokenResponseDelegate` (AccelByteChatApi.h:273-277):
`RefreshTokenResponse = OnSuccess; OnRefreshTokenError = OnError`. -/
def Chat.SetRefreshTokenResponseDelegate {δ : Type} (OnSuccess OnError : δ) (C : Chat δ) : Chat δ :=
  { C with RefreshTokenResponse := OnSuccess, OnRefreshTokenError := OnError }

/-- The member function `Chat::SetCreateTopicResponseDelegate` (AccelByteChatApi.h:449-453):
`CreateTopicResponse = OnSuccess; OnCreateTopicError = OnError`. -/
def Chat.SetCreateTopicResponseDelegate {δ : Type} (OnSuccess OnError : δ) (C : Chat δ) : Chat δ :=
  { C with CreateTopicResponse := OnSuccess, OnCreateTopicError := OnError }

/-- The member function `Chat::SetUpdateTopicResponseDelegate` (AccelByteChatApi.h:455-459):
`UpdateTopicResponse = OnSuccess; OnUpdateTopicError = OnError`. -/
def Chat.SetUpdateTopicResponseDelegate {δ : Type} (OnSuccess OnError : δ) (C : Chat δ) : Chat δ :=
  { C with UpdateTopicResponse := OnSuccess, OnUpdateTopicError := OnError }

/-- The member function `Chat::SetDeleteTopicResponseDelegate` (AccelByteChatApi.h:461-465):
`DeleteTopicResponse = OnSuccess; OnDeleteTopicError = OnError`. -/
def Chat.SetDeleteTopicResponseDelegate {δ : Type} (OnSuccess OnError : δ) (C : Chat δ) : Chat δ :=
  { C with DeleteTopicResponse := OnSuccess, OnDeleteTopicError := OnError }

/-- The member function `Chat::SetAddUserToTopicResponseDelegate` (AccelByteChatApi.h:467-471):
`AddUserToTopicResponse = OnSuccess; OnAddUserToTopicError = OnError`. -/
def Chat.SetAddUserToTopicResponseDelegate {δ : Type} (OnSuccess OnError : δ) (C : Chat δ) : Chat δ :=
  { C with AddUserToTopicResponse := OnSuccess, OnAddUserToTopicError := OnError }

/-- The member function `Chat::SetRemoveUserFromTopicResponseDelegate` (AccelByteChatApi.h:473-477):
`RemoveUserFromTopicResponse = OnSuccess; OnRemoveUserFromTopicError = OnError`. -/
def Chat.SetRemoveUserFromTopicResponseDelegate {δ : Type} (OnSuccess OnError : δ) (C : Chat δ) : Chat δ :=
  { C with RemoveUserFromTopicResponse := OnSuccess, OnRemoveUserFromTopicError := OnError }

/-- The member function `Chat::SetJoinTopicResponseDelegate` (AccelByteChatApi.h:479-483):
`JoinTopicResponse = OnSuccess; OnJoinTopicError = OnError`. -/
def Chat.SetJoinTopicResponseDelegate {δ : Type} (OnSuccess OnError : δ) (C : Chat δ) : Chat δ :=
  { C with JoinTopicResponse := OnSuccess, OnJoinTopicError := OnError }

/-- The member function `Chat::SetQuitTopicResponseDelegate` (AccelByteChatApi.h:485-489):
`QuitTopicResponse = OnSuccess; OnQuitTopicError = OnError`. -/
def Chat.SetQuitTopicResponseDelegate {δ : Type} (OnSuccess OnError : δ) (C : Chat δ) : Chat δ :=
  { C with QuitTopicResponse := OnSuccess, OnQuitTopicError := OnError }

/-- The member function `Chat::SetSendChatResponseDelegate` (AccelByteChatApi.h:508-512):
`SendChatResponse = OnSuccess; OnSendChatError = OnError`. -/
def Chat.SetSendChatResponseDelegate {δ : Type} (OnSuccess OnError : δ) (C : Chat δ) : Chat δ :=
  { C with SendChatResponse := OnSuccess, OnSendChatError := OnError }

/-- The member function `Chat::SetQueryTopicResponseDelegate` (AccelByteChatApi.h:617-621):
`QueryTopicResponse = OnSuccess; OnQueryTopicError = OnError`. -/
def Chat.SetQueryTopicResponseDelegate {δ : Type} (OnSuccess OnError : δ) (C : Chat δ) : Chat δ :=
  { C with QueryTopicResponse := OnSuccess, OnQueryTopicError := OnError }

/-- The member function `Chat::SetQueryTopicByIdResponseDelegate` (AccelByteChatApi.h:623-627):
`QueryTopicByIdResponse = OnSuccess; OnQueryTopicByIdError = OnError`. -/
def Chat.SetQueryTopicByIdResponseDelegate {δ : Type} (OnSuccess OnError : δ) (C : Chat δ) : Chat δ :=
  { C with QueryTopicByIdResponse := OnSuccess, OnQueryTopicByIdError := OnError }

/-- The member function `Chat::SetQueryPersonalTopicResponseDelegate` (AccelByteChatApi.h:629-633):
`QueryPersonalTopicResponse = OnSuccess; OnQueryPersonalTopicError = OnError`. -/
def Chat.SetQueryPersonalTopicResponseDelegate {δ : Type} (OnSuccess OnError : δ) (C : Chat δ) : Chat δ :=
  { C with QueryPersonalTopicResponse := OnSuccess, OnQueryPersonalTopicError := OnError }

/-- The member function `Chat::SetQueryGroupTopicResponseDelegate` (AccelByteChatApi.h:635-639):
`QueryGroupTopicResponse = OnSuccess; OnQueryGroupTopicError = OnError`. -/
def Chat.SetQueryGroupTopicResponseDelegate {δ : Type} (OnSuccess OnError : δ) (C : Chat δ) : Chat δ :=
  { C with QueryGroupTopicResponse := OnSuccess, OnQueryGroupTopicError := OnError }

/-- The member function `Chat::SetQueryPublicTopicResponseDelegate` (AccelByteChatApi.h:641-645):
`QueryPublicTopicResponse = OnSuccess; OnQueryPublicTopicError = OnError`. -/
def Chat.SetQueryPublicTopicResponseDelegate {δ : Type} (OnSuccess OnError : δ) (C : Chat δ) : Chat δ :=
  { C with QueryPublicTopicResponse := OnSuccess, OnQueryPublicTopicError := OnError }

/-- The member function `Chat::SetQueryChatResponseDelegate` (AccelByteChatApi.h:677-681):
`QueryChatResponse = OnSuccess; OnQueryChatError = OnError`. -/
def Chat.SetQueryChatResponseDelegate {δ : Type} (OnSuccess OnError : δ) (C : Chat δ) : Chat δ :=
  { C with QueryChatResponse := OnSuccess, OnQueryChatError := OnError }

/-- The member function `Chat::SetReadChatResponseDelegate` (AccelByteChatApi.h:699-703):
`ReadChatResponse = OnSuccess; OnReadChatError = OnError`. -/
def Chat.SetReadChatResponseDelegate {δ : Type} (OnSuccess OnError : δ) (C : Chat δ) : Chat δ :=
  { C with ReadChatResponse := OnSuccess, OnReadChatError := OnError }

/-- The member function `Chat::SetBlockUserResponseDelegate` (AccelByteChatApi.h:731-735):
`BlockUserResponse = OnSuccess; OnBlockUserError = OnError`. -/
def Chat.SetBlockUserResponseDelegate {δ : Type} (OnSuccess OnError : δ) (C : Chat δ) : Chat δ :=
  { C with BlockUserResponse := OnSuccess, OnBlockUserError := OnError }

/-- The member function `Chat::SetUnblockUserResponseDelegate` (AccelByteChatApi.h:737-741):
`UnblockUserResponse = OnSuccess; OnBlockUserError = OnError`. -/
def Chat.SetUnblockUserResponseDelegate {δ : Type} (OnSuccess OnError : δ) (C : Chat δ) :
    Chat δ :=
  { C with UnblockUserResponse := OnSuccess, OnBlockUserError := OnError }

/-- A `Chat` for concrete runs: every delegate slot holds the same delegate value and no request
is pending. -/
def Chat.Uniform {δ : Type} (Bound : δ) : Chat δ :=
  { ConnectSuccess := Bound
    ConnectError := Bound
    ParsingError := Bound
    DisconnectNotif := Bound
    ConnectionClosed := Bound
    MessageIdResponseMap := PendingMaps.Empty δ
    CreateTopicResponse := Bound
    SendChatResponse := Bound
    QueryTopicResponse := Bound
    QueryTopicByIdResponse := Bound
    QueryPersonalTopicResponse := Bound
    QueryGroupTopicResponse := Bound
    QueryPublicTopicResponse := Bound
    QueryChatResponse := Bound
    ReadChatResponse := Bound
    UpdateTopicResponse := Bound
    DeleteTopicResponse := Bound
    AddUserToTopicResponse := Bound
    RemoveUserFromTopicResponse := Bound
    JoinTopicResponse := Bound
    QuitTopicResponse := Bound
    RefreshTokenResponse := Bound
    BlockUserResponse := Bound
    UnblockUserResponse := Bound
    OnCreateTopicError := Bound
    OnSendChatError := Bound
    OnQueryTopicError := Bound
    OnQueryTopicByIdError := Bound
    OnQueryPersonalTopicError := Bound
    OnQueryGroupTopicError := Bound
    OnQueryPublicTopicError := Bound
    OnQueryChatError := Bound
    OnReadChatError := Bound
    OnUpdateTopicError := Bound
    OnDeleteTopicError := Bound
    OnAddUserToTopicError := Bound
    OnRemoveUserFromTopicError := Bound
    OnJoinTopicError := Bound
    OnQuitTopicError := Bound
    OnRefreshTokenError := Bound
    OnBlockUserError := Bound
    OnUnblockUserError := Bound
    ChatNotif := Bound
    ReadChatNotif := Bound
    AddToTopicNotif := Bound
    RemoveFromTopicNotif := Bound
    DeleteTopicNotif := Bound
    UpdateTopicNotif := Bound
    UserBanNotif := Bound
    UserUnbanNotif := Bound }

/-! ## The message handler of `Chat` -/

/-- The notification kinds of the Chat service: one per notification slot of `Chat`
(AccelByteChatApi.h:876-883), in the order of their declaration. -/
inductive NotifKind where
  | Chat
  | ReadChat
  | AddToTopic
  | RemoveFromTopic
  | DeleteTopic
  | UpdateTopic
  | UserBan
  | UserUnban
  deriving DecidableEq, Repr

/-- The notification slot of `Chat` for a notification kind. -/
def Chat.NotifSlot {δ : Type} (C : Chat δ) : NotifKind → δ
  | NotifKind.Chat => C.ChatNotif
  | NotifKind.ReadChat => C.ReadChatNotif
  | NotifKind.AddToTopic => C.AddToTopicNotif
  | NotifKind.RemoveFromTopic => C.RemoveFromTopicNotif
  | NotifKind.DeleteTopic => C.DeleteTopicNotif
  | NotifKind.UpdateTopic => C.UpdateTopicNotif
  | NotifKind.UserBan => C.UserBanNotif
  | NotifKind.UserUnban => C.UserUnbanNotif

/-- An inbound message once parsed and classified: a response, correlated by its id, or a
notification of some kind. -/
inductive Inbound (π : Type) where
  | Response (R : Response π)
  | Notification (Kind : NotifKind) (Payload : π)

/-- What the message handler did with one message: the `Chat` members afterwards, the response
and error delegates it invoked, and the notification delegates it invoked with their payload.
An invoked delegate that is not bound does nothing. -/
structure Handled (δ π : Type) where
  After : Chat δ
  Invoked : List (Invocation δ π)
  Notified : List (δ × π)

/-- Modelled from the spec: what `Chat::OnMessage`, whose body is not in the sources, does with
one complete inbound message.  The JSON parser is a parameter: it yields the classified message,
or, on a parse failure (malformed JSON, missing required fields), the error code and text.  Per
the spec: a parse failure invokes the generic parsing-error callback and does not otherwise
affect pending state; a response goes to the request correlator; a notification is routed to the
single handler registered for its kind. -/
def Chat.HandleMessage {δ π : Type} (Parse : String → Except (Int × String) (Inbound π))
    (C : Chat δ) (Message : String) : Handled δ π :=
  match Parse Message with
  | Except.error Failure =>
      { After := C
        Invoked := [Invocation.Error C.ParsingError Failure.1 Failure.2]
        Notified := [] }
  | Except.ok (Inbound.Response R) =>
      { After := { C with MessageIdResponseMap := (OnResponse C.MessageIdResponseMap R).1 }
        Invoked := (OnResponse C.MessageIdResponseMap R).2
        Notified := [] }
  | Except.ok (Inbound.Notification Kind Payload) =>
      { After := C
        Invoked := []
        Notified := [(C.NotifSlot Kind, Payload)] }

/-- A parser for concrete runs: it knows one response and one notification and fails, with code
1 and the text "parse", on every other message. -/
def SampleParse (Message : String) : Except (Int × String) (Inbound String) :=
  if Message = "response" then
    Except.ok (Inbound.Response ⟨ResponseKind.SendChat, "id-1", "sent"⟩)
  else if Message = "notification" then
    Except.ok (Inbound.Notification NotifKind.Chat "hello")
  else Except.error (1, "parse")

end Api
end AccelByte

namespace AccelByte
namespace GameServerApi

/-! ## The AMS connection handler `ServerAMS` -/

/-- The four events of the transport socket to which `ServerAMS::CreateWebSocket` attaches the
handler. -/
inductive SocketEvent where
  | OnConnected
  | OnMessageReceived
  | OnConnectionError
  | OnConnectionClosed
  deriving DecidableEq, Repr

/-- The transport socket `AccelByteWebSocket` as `ServerAMS` uses it.  Its code is not in the
sources, so what a socket does on each call is a parameter; `σ` is the state of a socket
object. -/
structure WebSocketApi (σ : Type) where
  Create : String → σ
  AddRaw : SocketEvent → σ → σ
  IsConnected : σ → Bool
  Connect : σ → σ
  Disconnect : Bool → σ → σ
  Send : String → σ → σ

/-- A delegate: unbound, or bound to a callable identified by a number. -/
abbrev Delegate := Option Nat

/-- What a member function of `ServerAMS` does to its collaborators: calls on the transport
socket, calls on the core ticker, and executions of the user's delegates.  `AddTicker Handle
Interval` is the call `AddTicker(AMSHeartbeatTickDelegate,
static_cast<float>(Interval.GetTotalSeconds()))` that returns `Handle`: the effect records the
time span `Interval` the period is computed from; the float period itself is not modelled. -/
inductive Effect where
  | WebSocketReset
  | WebSocketCreate (Url : String)
  | WebSocketAddRaw (Event : SocketEvent)
  | WebSocketConnect
  | WebSocketDisconnect (bForceCleanup : Bool)
  | WebSocketSend (Message : String)
  | AddTicker (Handle : Nat) (Interval : Nat)
  | RemoveTicker (Handle : Nat)
  | ExecuteConnectSuccess (Bound : Nat)
  | ExecuteConnectError (Bound : Nat) (Error : String)
  | ExecuteConnectionClosed (Bound : Nat) (StatusCode : Int) (Reason : String) (bWasClean : Bool)
  | ExecuteAMSDrainReceived (Bound : Nat)
  deriving DecidableEq, Repr

/-- The state a `ServerAMS` object works on: the settings it reads (`ServerSettingsRef`), its own
members, and the core ticker (`FTickerAlias::GetCoreTicker()`) as the list of registered handles
with the next handle it will give out.  `WebSocket` is `none` when the shared pointer is not
valid; a delegate handle is `none` when it is not valid.  The heartbeat interval, an `FTimespan`
made from the setting by `FTimespan::FromSeconds`, is carried as a number that is only stored;
the float period computed from it for the ticker is not modelled. -/
structure ServerAMS (σ : Type) where
  DSId : String
  AMSServerWatchdogUrl : String
  SettingsAMSHeartbeatInterval : Nat
  WebSocket : Option σ
  AMSHeartbeatInterval : Nat
  AMSHeartbeatTickDelegateHandle : Option Nat
  bHeartbeatJobStarted : Bool
  OnConnectSuccessDelegate : Delegate
  OnConnectErrorDelegate : Delegate
  OnConnectionClosedDelegate : Delegate
  OnAMSDrainReceivedDelegate : Delegate
  CoreTicker : List Nat
  NextTickerHandle : Nat

/-- A `ServerAMS` right after construction (AccelByteServerAMSApi.cpp:22-28): the constructor
sets no member, so there is no socket, no valid ticker handle and no bound delegate.  The initial
value of `bHeartbeatJobStarted` is given in the header, which is not in the sources; it is taken
to be false. -/
def ServerAMS.New (σ : Type) (DSId AMSServerWatchdogUrl : String)
    (SettingsAMSHeartbeatInterval : Nat) : ServerAMS σ :=
  { DSId := DSId
    AMSServerWatchdogUrl := AMSServerWatchdogUrl
    SettingsAMSHeartbeatInterval := SettingsAMSHeartbeatInterval
    WebSocket := none
    AMSHeartbeatInterval := 0
    AMSHeartbeatTickDelegateHandle := none
    bHeartbeatJobStarted := false
    OnConnectSuccessDelegate := none
    OnConnectErrorDelegate := none
    OnConnectionClosedDelegate := none
    OnAMSDrainReceivedDelegate := none
    CoreTicker := []
    NextTickerHandle := 1 }

/-- The member function `ServerAMS::IsConnected` (AccelByteServerAMSApi.cpp:88-93):
`WebSocket.IsValid() && WebSocket->IsConnected()`. -/
def ServerAMS.IsConnected {σ : Type} (Api : WebSocketApi σ) (S : ServerAMS σ) : Bool :=
  match S.WebSocket with
  | some Socket => Api.IsConnected Socket
  | none => false

/-- The member function `ServerAMS::CreateWebSocket` (AccelByteServerAMSApi.cpp:102-123): resets a valid socket
pointer, creates the socket for the watchdog url, attaches the four handlers and reads the
heartbeat interval from the settings.  Loading the engine module "WebSockets" is not modelled. -/
def ServerAMS.CreateWebSocket {σ : Type} (Api : WebSocketApi σ) (S : ServerAMS σ) :
    ServerAMS σ × List Effect :=
  ({ S with
      WebSocket := some
        (Api.AddRaw SocketEvent.OnConnectionClosed
          (Api.AddRaw SocketEvent.OnConnectionError
            (Api.AddRaw SocketEvent.OnMessageReceived
              (Api.AddRaw SocketEvent.OnConnected (Api.Create S.AMSServerWatchdogUrl)))))
      AMSHeartbeatInterval := S.SettingsAMSHeartbeatInterval },
   (if S.WebSocket.isSome then [Effect.WebSocketReset] else [])
     ++ [Effect.WebSocketCreate S.AMSServerWatchdogUrl,
         Effect.WebSocketAddRaw SocketEvent.OnConnected,
         Effect.WebSocketAddRaw SocketEvent.OnMessageReceived,
         Effect.WebSocketAddRaw SocketEvent.OnConnectionError,
         Effect.WebSocketAddRaw SocketEvent.OnConnectionClosed])

/-- The member function `ServerAMS::Connect` (AccelByteServerAMSApi.cpp:45-68): returns at once when the DS id is
empty; creates the socket when the pointer is not valid; returns when the socket reports
connected; otherwise calls `Connect` on the socket. -/
def ServerAMS.Connect {σ : Type} (Api : WebSocketApi σ) (S : ServerAMS σ) :
    ServerAMS σ × List Effect :=
  if S.DSId.isEmpty then (S, [])
  else
    let Created := if S.WebSocket.isNone then ServerAMS.CreateWebSocket Api S else (S, [])
    match Created.1.WebSocket with
    | none => Created
    | some Socket =>
        if Api.IsConnected Socket then Created
        else ({ Created.1 with WebSocket := some (Api.Connect Socket) },
              Created.2 ++ [Effect.WebSocketConnect])

/-- The member function `ServerAMS::Disconnect` (AccelByteServerAMSApi.cpp:70-86): when the socket pointer is valid,
calls `Disconnect(bForceCleanup)` on the socket and, when the heartbeat ticker handle is valid,
removes the ticker, resets the handle and clears `bHeartbeatJobStarted`. -/
def ServerAMS.Disconnect {σ : Type} (Api : WebSocketApi σ) (bForceCleanup : Bool)
    (S : ServerAMS σ) : ServerAMS σ × List Effect :=
  match S.WebSocket with
  | none => (S, [])
  | some Socket =>
      match S.AMSHeartbeatTickDelegateHandle with
      | some Handle =>
          ({ S with
              WebSocket := some (Api.Disconnect bForceCleanup Socket)
              CoreTicker := S.CoreTicker.filter (fun H => decide (H ≠ Handle))
              AMSHeartbeatTickDelegateHandle := none
              bHeartbeatJobStarted := false },
           [Effect.WebSocketDisconnect bForceCleanup, Effect.RemoveTicker Handle])
      | none =>
          ({ S with WebSocket := some (Api.Disconnect bForceCleanup Socket) },
           [Effect.WebSocketDisconnect bForceCleanup])

/-- A transport for concrete runs: a socket is its connected flag.  A new socket is not
connected, `Connect` starts an asynchronous open and so leaves the flag as it is, `Disconnect`
clears the flag, and the other calls do not touch it. -/
def FlagSocket : WebSocketApi Bool :=
  { Create := fun _ => false
    AddRaw := fun _ Socket => Socket
    IsConnected := fun Socket => Socket
    Connect := fun Socket => Socket
    Disconnect := fun _ _ => false
    Send := fun _ Socket => Socket }

/-- The JSON reader of the engine as `ServerAMS::OnMessage` uses it: `FJsonSerializer::Deserialize`
into a JSON object (`none` when it fails) and `FJsonObject::HasTypedField<EJson::Object>`.  Both
are engine code, so they are parameters; `ω` is the type of a parsed JSON object. -/
structure JsonApi (ω : Type) where
  Deserialize : String → Option ω
  HasTypedFieldObject : ω → String → Bool

/-- The member function `ServerAMS::UnbindDelegates` (AccelByteServerAMSApi.cpp:95-100). -/
def ServerAMS.UnbindDelegates {σ : Type} (S : ServerAMS σ) : ServerAMS σ × List Effect :=
  ({ S with
      OnConnectSuccessDelegate := none
      OnConnectErrorDelegate := none
      OnConnectionClosedDelegate := none }, [])

/-- The member function `ServerAMS::OnConnected` (AccelByteServerAMSApi.cpp:125-129):
`OnConnectSuccessDelegate.ExecuteIfBound()`. -/
def ServerAMS.OnConnected {σ : Type} (S : ServerAMS σ) : ServerAMS σ × List Effect :=
  match S.OnConnectSuccessDelegate with
  | some Bound => (S, [Effect.ExecuteConnectSuccess Bound])
  | none => (S, [])

/-- The member function `ServerAMS::OnConnectionError` (AccelByteServerAMSApi.cpp:131-136):
`OnConnectErrorDelegate.ExecuteIfBound(Error)`. -/
def ServerAMS.OnConnectionError {σ : Type} (Error : String) (S : ServerAMS σ) :
    ServerAMS σ × List Effect :=
  match S.OnConnectErrorDelegate with
  | some Bound => (S, [Effect.ExecuteConnectError Bound Error])
  | none => (S, [])

/-- The member function `ServerAMS::SetOnConnectSuccess` (AccelByteServerAMSApi.cpp:138-141). -/
def ServerAMS.SetOnConnectSuccess {σ : Type} (OnConnectSuccess : Delegate) (S : ServerAMS σ) :
    ServerAMS σ × List Effect :=
  ({ S with OnConnectSuccessDelegate := OnConnectSuccess }, [])

/-- The member function `ServerAMS::SetOnConnectError` (AccelByteServerAMSApi.cpp:143-146). -/
def ServerAMS.SetOnConnectError {σ : Type} (OnConnectError : Delegate) (S : ServerAMS σ) :
    ServerAMS σ × List Effect :=
  ({ S with OnConnectErrorDelegate := OnConnectError }, [])

/-- The member function `ServerAMS::SetOnConnectionClosed` (AccelByteServerAMSApi.cpp:148-151). -/
def ServerAMS.SetOnConnectionClosed {σ : Type} (OnConnectionClosed : Delegate) (S : ServerAMS σ) :
    ServerAMS σ × List Effect :=
  ({ S with OnConnectionClosedDelegate := OnConnectionClosed }, [])

/-- The member function `ServerAMS::OnMessage` (AccelByteServerAMSApi.cpp:153-173): an empty
message is ignored; a message that does not deserialize to a JSON object is dropped with a
warning in the log; when the object has a field "drain" of type object the drain delegate is
executed if bound. -/
def ServerAMS.OnMessage {σ ω : Type} (Json : JsonApi ω) (Message : String) (S : ServerAMS σ) :
    ServerAMS σ × List Effect :=
  if Message.isEmpty then (S, [])
  else
    match Json.Deserialize Message with
    | none => (S, [])
    | some MessageObject =>
        if Json.HasTypedFieldObject MessageObject "drain" then
          match S.OnAMSDrainReceivedDelegate with
          | some Bound => (S, [Effect.ExecuteAMSDrainReceived Bound])
          | none => (S, [])
        else (S, [])

/-- The member function `ServerAMS::OnClosed` (AccelByteServerAMSApi.cpp:175-180):
`OnConnectionClosedDelegate.ExecuteIfBound(StatusCode, Reason, bWasClean)`. -/
def ServerAMS.OnClosed {σ : Type} (StatusCode : Int) (Reason : String) (bWasClean : Bool)
    (S : ServerAMS σ) : ServerAMS σ × List Effect :=
  match S.OnConnectionClosedDelegate with
  | some Bound => (S, [Effect.ExecuteConnectionClosed Bound StatusCode Reason bWasClean])
  | none => (S, [])

/-- The member function `ServerAMS::SetOnAMSDrainReceivedDelegate`
(AccelByteServerAMSApi.cpp:182-191): unbinds a bound delegate, then assigns the new one. -/
def ServerAMS.SetOnAMSDrainReceivedDelegate {σ : Type} (OnAMSDrain : Delegate)
    (S : ServerAMS σ) : ServerAMS σ × List Effect :=
  let Unbound := if S.OnAMSDrainReceivedDelegate.isSome
    then { S with OnAMSDrainReceivedDelegate := none } else S
  ({ Unbound with OnAMSDrainReceivedDelegate := OnAMSDrain }, [])

/-- The text built by `FString::Format(TEXT("{\"ready\":{\"dsid\":\"{0}\"}}"), { DSId })` in
`ServerAMS::SendReadyMessage`: the DS id takes the place of the argument `{0}` and every other
character of the pattern is kept. -/
def ReadyMessage (DSId : String) : String :=
  "\x7b\"ready\":\x7b\"dsid\":\"" ++ DSId ++ "\"\x7d\x7d"

/-- The text of the heartbeat message in `ServerAMS::SendHeartbeat`
(AccelByteServerAMSApi.cpp:220). -/
def HeartbeatMessage : String := "\x7b\"heartbeat\":\x7b\x7d\x7d"

/-- The member function `ServerAMS::SendReadyMessage` (AccelByteServerAMSApi.cpp:193-211):
returns when not connected; sends the ready message; when `bHeartbeatJobStarted` is false, sets
it and registers `PeriodicHeartbeat` with the core ticker, keeping the handle.  The period of the
ticker is `static_cast<float>(AMSHeartbeatInterval.GetTotalSeconds())`; the effect records the
member `AMSHeartbeatInterval` it is computed from, not the float. -/
def ServerAMS.SendReadyMessage {σ : Type} (Api : WebSocketApi σ) (S : ServerAMS σ) :
    ServerAMS σ × List Effect :=
  match S.WebSocket with
  | none => (S, [])
  | some Socket =>
      if Api.IsConnected Socket then
        if S.bHeartbeatJobStarted = false then
          ({ S with
              WebSocket := some (Api.Send (ReadyMessage S.DSId) Socket)
              bHeartbeatJobStarted := true
              AMSHeartbeatTickDelegateHandle := some S.NextTickerHandle
              CoreTicker := S.NextTickerHandle :: S.CoreTicker
              NextTickerHandle := S.NextTickerHandle + 1 },
           [Effect.WebSocketSend (ReadyMessage S.DSId),
            Effect.AddTicker S.NextTickerHandle S.AMSHeartbeatInterval])
        else
          ({ S with WebSocket := some (Api.Send (ReadyMessage S.DSId) Socket) },
           [Effect.WebSocketSend (ReadyMessage S.DSId)])
      else (S, [])

/-- The member function `ServerAMS::SendHeartbeat` (AccelByteServerAMSApi.cpp:213-222): returns
when not connected; otherwise sends the heartbeat message. -/
def ServerAMS.SendHeartbeat {σ : Type} (Api : WebSocketApi σ) (S : ServerAMS σ) :
    ServerAMS σ × List Effect :=
  match S.WebSocket with
  | none => (S, [])
  | some Socket =>
      if Api.IsConnected Socket then
        ({ S with WebSocket := some (Api.Send HeartbeatMessage Socket) },
         [Effect.WebSocketSend HeartbeatMessage])
      else (S, [])

/-- The member function `ServerAMS::PeriodicHeartbeat` (AccelByteServerAMSApi.cpp:224-228):
calls `SendHeartbeat` and returns true. -/
def ServerAMS.PeriodicHeartbeat {σ : Type} (Api : WebSocketApi σ) (_DeltaTime : Nat)
    (S : ServerAMS σ) : (ServerAMS σ × List Effect) × Bool :=
  (ServerAMS.SendHeartbeat Api S, true)

/-- What can happen to a `ServerAMS` object: a call of one of its member functions by the
application, by the core ticker (`PeriodicHeartbeat`) or by the transport socket (the four
handlers attached in `CreateWebSocket`), and a change of the socket object made by the transport
on its own, such as the connection being established or lost (`Transport`). -/
inductive Action (σ : Type) where
  | Connect
  | Disconnect (bForceCleanup : Bool)
  | UnbindDelegates
  | SetOnConnectSuccess (OnConnectSuccess : Delegate)
  | SetOnConnectError (OnConnectError : Delegate)
  | SetOnConnectionClosed (OnConnectionClosed : Delegate)
  | SetOnAMSDrainReceivedDelegate (OnAMSDrain : Delegate)
  | SendReadyMessage
  | SendHeartbeat
  | PeriodicHeartbeat (DeltaTime : Nat)
  | OnConnected
  | OnMessage (Message : String)
  | OnConnectionError (Error : String)
  | OnClosed (StatusCode : Int) (Reason : String) (bWasClean : Bool)
  | Transport (Socket : σ)

/-- One action on a `ServerAMS` object: the state afterwards and the effects of the action. -/
def ServerAMS.Step {σ ω : Type} (Api : WebSocketApi σ) (Json : JsonApi ω) (S : ServerAMS σ) :
    Action σ → ServerAMS σ × List Effect
  | Action.Connect => ServerAMS.Connect Api S
  | Action.Disconnect bForceCleanup => ServerAMS.Disconnect Api bForceCleanup S
  | Action.UnbindDelegates => ServerAMS.UnbindDelegates S
  | Action.SetOnConnectSuccess D => ServerAMS.SetOnConnectSuccess D S
  | Action.SetOnConnectError D => ServerAMS.SetOnConnectError D S
  | Action.SetOnConnectionClosed D => ServerAMS.SetOnConnectionClosed D S
  | Action.SetOnAMSDrainReceivedDelegate D => ServerAMS.SetOnAMSDrainReceivedDelegate D S
  | Action.SendReadyMessage => ServerAMS.SendReadyMessage Api S
  | Action.SendHeartbeat => ServerAMS.SendHeartbeat Api S
  | Action.PeriodicHeartbeat DeltaTime => (ServerAMS.PeriodicHeartbeat Api DeltaTime S).1
  | Action.OnConnected => ServerAMS.OnConnected S
  | Action.OnMessage Message => ServerAMS.OnMessage Json Message S
  | Action.OnConnectionError Error => ServerAMS.OnConnectionError Error S
  | Action.OnClosed StatusCode Reason bWasClean =>
      ServerAMS.OnClosed StatusCode Reason bWasClean S
  | Action.Transport Socket =>
      match S.WebSocket with
      | some _ => ({ S with WebSocket := some Socket }, [])
      | none => (S, [])

/-- A sequence of actions, in order: the state afterwards and all effects, in order. -/
def ServerAMS.Run {σ ω : Type} (Api : WebSocketApi σ) (Json : JsonApi ω) :
    ServerAMS σ → List (Action σ) → ServerAMS σ × List Effect
  | S, [] => (S, [])
  | S, A :: Rest =>
      ((ServerAMS.Run Api Json (ServerAMS.Step Api Json S A).1 Rest).1,
       (ServerAMS.Step Api Json S A).2
         ++ (ServerAMS.Run Api Json (ServerAMS.Step Api Json S A).1 Rest).2)

/-- A JSON reader for concrete runs: it knows the drain message of the AMS, an object without a
drain field and a drain field that is not an object, and fails on every other text.  A parsed
object is represented by whether it has a field "drain" of type object. -/
def SampleJson : JsonApi Bool :=
  { Deserialize := fun Message =>
      if Message = "\x7b\"drain\":\x7b\x7d\x7d" then some true
      else if Message = "\x7b\"other\":\x7b\x7d\x7d" then some false
      else if Message = "\x7b\"drain\":1\x7d" then some false
      else none
    HasTypedFieldObject := fun Object Field => Object && decide (Field = "drain") }

/-- The state reached from a new handler by a sequence of actions. -/
def ServerAMS.Reached {σ ω : Type} (Api : WebSocketApi σ) (Json : JsonApi ω)
    (DSId AMSServerWatchdogUrl : String) (SettingsAMSHeartbeatInterval : Nat)
    (Actions : List (Action σ)) : ServerAMS σ :=
  (ServerAMS.Run Api Json
    (ServerAMS.New σ DSId AMSServerWatchdogUrl SettingsAMSHeartbeatInterval) Actions).1

/-- The heartbeat bookkeeping preserved by every action, with `History` the effects so far:
a valid ticker handle implies that a socket exists and that the ready message has been sent;
`bHeartbeatJobStarted` is true exactly when the handle is valid; and the tickers registered with
the core ticker are exactly the valid handle. -/
def ServerAMS.HeartbeatInv {σ : Type} (S : ServerAMS σ) (History : List Effect) : Prop :=
  (S.AMSHeartbeatTickDelegateHandle.isSome = true →
      S.WebSocket.isSome = true ∧ Effect.WebSocketSend (ReadyMessage S.DSId) ∈ History)
  ∧ (S.bHeartbeatJobStarted = true ↔ S.AMSHeartbeatTickDelegateHandle.isSome = true)
  ∧ S.CoreTicker = S.AMSHeartbeatTickDelegateHandle.toList

/-! ## The session REST calls `ServerSession` -/

/-- An HTTP request of the engine (`IHttpRequest`) as the calls of `ServerSession` build it: the
URL, the verb, the headers and the body, if one was set. -/
structure FHttpRequest where
  URL : String
  Verb : String
  Headers : List (String × String)
  Content : Option String
  deriving DecidableEq, Repr

/-- The request made by `FHttpModule::Get().CreateRequest()`: nothing set yet. -/
def FHttpRequest.Create : FHttpRequest :=
  { URL := "", Verb := "", Headers := [], Content := none }

/-- The engine call `SetURL`. -/
def FHttpRequest.SetURL (Url : String) (R : FHttpRequest) : FHttpRequest :=
  { R with URL := Url }

/-- The engine call `SetVerb`. -/
def FHttpRequest.SetVerb (Verb : String) (R : FHttpRequest) : FHttpRequest :=
  { R with Verb := Verb }

/-- The engine call `SetHeader`: the header of that name is set, replacing an earlier value. -/
def FHttpRequest.SetHeader (Name Value : String) (R : FHttpRequest) : FHttpRequest :=
  { R with Headers := R.Headers.filter (fun H => decide (H.1 ≠ Name)) ++ [(Name, Value)] }

/-- The engine call `SetContentAsString`. -/
def FHttpRequest.SetContentAsString (Content : String) (R : FHttpRequest) : FHttpRequest :=
  { R with Content := some Content }

/-- The value of a header of a request, if set. -/
def FHttpRequest.GetHeader (Name : String) (R : FHttpRequest) : Option String :=
  (R.Headers.find? (fun H => decide (H.1 = Name))).map Prod.snd

/-- What a `ServerSession` reads: the client access token and the client namespace of
`CredentialsRef`, and the session server url of `SettingsRef`. -/
structure ServerSession where
  ClientAccessToken : String
  ClientNamespace : String
  SessionServerUrl : String
  deriving DecidableEq, Repr

/-- A call of `HttpRef.ProcessRequest`: the request, and the two callbacks from which the result
handler is made (`CreateHttpResultHandler(OnSuccess, OnError)`).  The time stamp passed along is
not modelled. -/
structure ProcessRequest where
  Request : FHttpRequest
  OnSuccess : Delegate
  OnError : Delegate
  deriving DecidableEq, Repr

/-- The member function `ServerSession::GetGameSessionDetails`
(AccelByteServerSessionApi.cpp:30-49); returns the calls of `HttpRef.ProcessRequest` it
makes. -/
def ServerSession.GetGameSessionDetails (S : ServerSession) (GameSessionID : String)
    (OnSuccess OnError : Delegate) : List ProcessRequest :=
  let Authorization := "Bearer " ++ S.ClientAccessToken
  let Url := S.SessionServerUrl ++ "/v1/public/namespaces/" ++ S.ClientNamespace
    ++ "/gamesessions/" ++ GameSessionID
  let Request :=
    FHttpRequest.SetHeader "Accept" "application/json"
      (FHttpRequest.SetHeader "Content-Type" "application/json"
        (FHttpRequest.SetVerb "GET"
          (FHttpRequest.SetHeader "Authorization" Authorization
            (FHttpRequest.SetURL Url FHttpRequest.Create))))
  [{ Request := Request, OnSuccess := OnSuccess, OnError := OnError }]

/-- The member function `ServerSession::UpdateGameSession`
(AccelByteServerSessionApi.cpp:51-76); returns the calls of `HttpRef.ProcessRequest` it makes.
The serializer `Api::Session::SerializeAndRemoveEmptyValues` is not in the sources and is a
parameter. -/
def ServerSession.UpdateGameSession {ρ : Type} (SerializeAndRemoveEmptyValues : ρ → String)
    (S : ServerSession) (GameSessionID : String) (UpdateRequest : ρ)
    (OnSuccess OnError : Delegate) : List ProcessRequest :=
  let Authorization := "Bearer " ++ S.ClientAccessToken
  let Url := S.SessionServerUrl ++ "/v1/public/namespaces/" ++ S.ClientNamespace
    ++ "/gamesessions/" ++ GameSessionID
  let Content := SerializeAndRemoveEmptyValues UpdateRequest
  let Request :=
    FHttpRequest.SetContentAsString Content
      (FHttpRequest.SetHeader "Accept" "application/json"
        (FHttpRequest.SetHeader "Content-Type" "application/json"
          (FHttpRequest.SetVerb "PATCH"
            (FHttpRequest.SetHeader "Authorization" Authorization
              (FHttpRequest.SetURL Url FHttpRequest.Create)))))
  [{ Request := Request, OnSuccess := OnSuccess, OnError := OnError }]

/-- The member function `ServerSession::DeleteGameSession`
(AccelByteServerSessionApi.cpp:78-96); returns the calls of `HttpRef.ProcessRequest` it
makes. -/
def ServerSession.DeleteGameSession (S : ServerSession) (GameSessionID : String)
    (OnSuccess OnError : Delegate) : List ProcessRequest :=
  let Authorization := "Bearer " ++ S.ClientAccessToken
  let Url := S.SessionServerUrl ++ "/v1/public/namespaces/" ++ S.ClientNamespace
    ++ "/gamesessions/" ++ GameSessionID
  let Request :=
    FHttpRequest.SetHeader "Accept" "application/json"
      (FHttpRequest.SetHeader "Content-Type" "application/json"
        (FHttpRequest.SetVerb "DELETE"
          (FHttpRequest.SetHeader "Authorization" Authorization
            (FHttpRequest.SetURL Url FHttpRequest.Create))))
  [{ Request := Request, OnSuccess := OnSuccess, OnError := OnError }]

end GameServerApi
end AccelByte

/-! # Theorems -/

namespace AccelByte
namespace Api

/-! ## Envelope framer -/

theorem ClassifyFrame_wrapped (S E p : List Char) :
    ClassifyFrame (S ++ p ++ E) S E = FrameKind.Complete := by
  have h1 : S <+: S ++ p ++ E := ⟨p ++ E, by simp⟩
  have h2 : E <:+ S ++ p ++ E := ⟨S ++ p, rfl⟩
  have h3 : S.length + E.length ≤ (S ++ p ++ E).length := by simp
  unfold ClassifyFrame
  rw [if_pos ⟨h1, h2, h3⟩]

theorem ProcessFragmentedMessage_wrapped (S E p b : List Char) :
    ProcessFragmentedMessage (S ++ p ++ E) S E b
      = { InOutEnvelopeBuffer := b, OutMessage := p, OutIsMessageEnd := true } := by
  unfold ProcessFragmentedMessage
  rw [ClassifyFrame_wrapped]
  have hd : (S ++ p ++ E).drop S.length = p ++ E := by
    rw [List.append_assoc, List.drop_left]
  have hl : (S ++ p ++ E).length - S.length - E.length = p.length := by
    simp only [List.length_append]; omega
  simp only [hd, hl, List.take_left]

theorem ClassifyFrame_first {S E m : List Char} (h1 : S <+: m) (h2 : ¬ E <:+ m) :
    ClassifyFrame m S E = FrameKind.First := by
  unfold ClassifyFrame
  rw [if_neg (fun h => h2 h.2.1), if_pos ⟨h1, h2⟩]

theorem ClassifyFrame_final {S E m : List Char} (h1 : ¬ S <+: m) (h2 : E <:+ m) :
    ClassifyFrame m S E = FrameKind.Final := by
  unfold ClassifyFrame
  rw [if_neg (fun h => h1 h.1), if_neg (fun h => h1 h.1), if_pos ⟨h1, h2⟩]

theorem ClassifyFrame_middle {S E m : List Char} (h1 : ¬ S <+: m) (h2 : ¬ E <:+ m) :
    ClassifyFrame m S E = FrameKind.Middle := by
  unfold ClassifyFrame
  rw [if_neg (fun h => h1 h.1), if_neg (fun h => h1 h.1), if_neg (fun h => h2 h.2)]

theorem FeedFrames_append (S E : List Char) (xs ys : List (List Char)) (b : List Char) :
    FeedFrames S E b (xs ++ ys)
      = ((FeedFrames S E (FeedFrames S E b xs).1 ys).1,
         (FeedFrames S E b xs).2 ++ (FeedFrames S E (FeedFrames S E b xs).1 ys).2) := by
  induction xs generalizing b with
  | nil => simp [FeedFrames]
  | cons x xs ih => simp [FeedFrames, ih]

theorem FeedFrames_middles (S E : List Char) (mids : List (List Char))
    (hm : ∀ m ∈ mids, ¬ S <+: m ∧ ¬ E <:+ m) (b : List Char) :
    FeedFrames S E b mids = (b ++ mids.flatten, mids.map (fun _ => ([], false))) := by
  induction mids generalizing b with
  | nil => simp [FeedFrames]
  | cons m mids ih =>
    have hc := ClassifyFrame_middle (hm m (List.mem_cons_self _ _)).1 (hm m (List.mem_cons_self _ _)).2
    have ih2 := ih (fun x hx => hm x (List.mem_cons_of_mem _ hx)) (b ++ m)
    simp [FeedFrames, ProcessFragmentedMessage, hc, ih2]

theorem FeedFrames_snoc (S E : List Char) (frames : List (List Char)) (f b : List Char) :
    FeedFrames S E b (frames ++ [f])
      = ((ProcessFragmentedMessage f S E (FeedFrames S E b frames).1).InOutEnvelopeBuffer,
         (FeedFrames S E b frames).2
           ++ [((ProcessFragmentedMessage f S E (FeedFrames S E b frames).1).OutMessage,
                (ProcessFragmentedMessage f S E (FeedFrames S E b frames).1).OutIsMessageEnd)]) := by
  rw [FeedFrames_append]
  simp [FeedFrames]

theorem FeedFrames_buffer_nonempty (S E : List Char) (frames : List (List Char)) :
    (FeedFrames S E [] frames).1 ≠ [] →
      ∃ pre g post, frames = pre ++ g :: post
        ∧ (ClassifyFrame g S E = FrameKind.First ∨ ClassifyFrame g S E = FrameKind.Middle)
        ∧ ∀ h ∈ post, ClassifyFrame h S E = FrameKind.Complete := by
  induction frames using List.reverseRecOn with
  | nil => intro h; exact absurd rfl h
  | append_singleton l a ih =>
    intro h
    rw [FeedFrames_snoc] at h
    cases hc : ClassifyFrame a S E with
    | Complete =>
      simp only [ProcessFragmentedMessage, hc] at h
      obtain ⟨pre, g, post, hl, hg, hpost⟩ := ih h
      refine ⟨pre, g, post ++ [a], by simp [hl], hg, ?_⟩
      intro x hx
      rcases List.mem_append.mp hx with hx | hx
      · exact hpost x hx
      · rw [List.mem_singleton.mp hx]; exact hc
    | First => exact ⟨l, a, [], rfl, Or.inl hc, by simp⟩
    | Final => simp [ProcessFragmentedMessage, hc] at h
    | Middle => exact ⟨l, a, [], rfl, Or.inr hc, by simp⟩

/-- Claim C1: for every payload p and every prior buffer content b, the framer called on the
single frame "CaSr" ++ p ++ "CaEd" sets OutMessage to exactly p, sets OutIsMessageEnd to true and
leaves the buffer equal to b. -/
theorem ProcessFragmentedMessage_single_frame (p b : List Char) :
    ProcessFragmentedMessage (WsEnvelopeStart ++ p ++ WsEnvelopeEnd) WsEnvelopeStart WsEnvelopeEnd b
      = { InOutEnvelopeBuffer := b, OutMessage := p, OutIsMessageEnd := true } :=
  ProcessFragmentedMessage_wrapped WsEnvelopeStart WsEnvelopeEnd p b

/-- Claim C2: for a first fragment "CaSr" ++ p1 that does not end with "CaEd", any number of
middle frames that neither begin with "CaSr" nor end with "CaEd", and a last fragment
pn ++ "CaEd" that does not begin with "CaSr", fed in order from an empty buffer: every call but
the last reports OutIsMessageEnd = false, the last reports true with OutMessage equal to
p1 ++ the middle frames ++ pn, and the buffer is empty afterwards. -/
theorem FeedFrames_reassembles (p1 pn : List Char) (mids : List (List Char))
    (h1 : ¬ WsEnvelopeEnd <:+ WsEnvelopeStart ++ p1)
    (hm : ∀ m ∈ mids, ¬ WsEnvelopeStart <+: m ∧ ¬ WsEnvelopeEnd <:+ m)
    (hn : ¬ WsEnvelopeStart <+: pn ++ WsEnvelopeEnd) :
    (FeedFrames WsEnvelopeStart WsEnvelopeEnd []
        ((WsEnvelopeStart ++ p1) :: (mids ++ [pn ++ WsEnvelopeEnd]))).1 = []
    ∧ (FeedFrames WsEnvelopeStart WsEnvelopeEnd []
        ((WsEnvelopeStart ++ p1) :: (mids ++ [pn ++ WsEnvelopeEnd]))).2.map Prod.snd
        = List.replicate (mids.length + 1) false ++ [true]
    ∧ (FeedFrames WsEnvelopeStart WsEnvelopeEnd []
        ((WsEnvelopeStart ++ p1) :: (mids ++ [pn ++ WsEnvelopeEnd]))).2.getLast?
        = some (p1 ++ mids.flatten ++ pn, true) := by
  have hf := ClassifyFrame_first (List.prefix_append WsEnvelopeStart p1) h1
  have hl := ClassifyFrame_final hn (List.suffix_append pn WsEnvelopeEnd)
  have hmid := FeedFrames_middles WsEnvelopeStart WsEnvelopeEnd mids hm p1
  have hlen : (pn ++ WsEnvelopeEnd).length - WsEnvelopeEnd.length = pn.length := by simp
  have hlast : ∀ (x y : List Char × Bool) (l : List (List Char × Bool)),
      (x :: (l ++ [y])).getLast? = some y := by
    intro x y l
    rw [← List.cons_append, List.getLast?_append]
    simp
  simp [FeedFrames, ProcessFragmentedMessage, hf, hl, hmid, hlen, FeedFrames_append,
    List.replicate_succ, hlast]

/-- Witness for claim C2: the message "abcdef" sent as the three frames "CaSrab", "cd",
"efCaEd". -/
theorem FeedFrames_reassembles_witness :
    (FeedFrames WsEnvelopeStart WsEnvelopeEnd []
        ((WsEnvelopeStart ++ ['a', 'b']) :: ([['c', 'd']] ++ [['e', 'f'] ++ WsEnvelopeEnd]))).1 = []
    ∧ (FeedFrames WsEnvelopeStart WsEnvelopeEnd []
        ((WsEnvelopeStart ++ ['a', 'b']) :: ([['c', 'd']] ++ [['e', 'f'] ++ WsEnvelopeEnd]))).2.map
          Prod.snd = List.replicate ([['c', 'd']].length + 1) false ++ [true]
    ∧ (FeedFrames WsEnvelopeStart WsEnvelopeEnd []
        ((WsEnvelopeStart ++ ['a', 'b']) :: ([['c', 'd']] ++ [['e', 'f'] ++ WsEnvelopeEnd]))).2.getLast?
        = some (['a', 'b'] ++ [['c', 'd']].flatten ++ ['e', 'f'], true) :=
  FeedFrames_reassembles ['a', 'b'] ['e', 'f'] [['c', 'd']] (by decide) (by decide) (by decide)

/-- Claim C3: the frame that is exactly "CaSrCaEd" is read as a complete frame (not as a first,
final or middle fragment) and yields OutIsMessageEnd = true with the empty OutMessage, the buffer
unmodified. -/
theorem ProcessFragmentedMessage_empty_payload (b : List Char) :
    ClassifyFrame (WsEnvelopeStart ++ WsEnvelopeEnd) WsEnvelopeStart WsEnvelopeEnd
      = FrameKind.Complete
    ∧ ProcessFragmentedMessage (WsEnvelopeStart ++ WsEnvelopeEnd) WsEnvelopeStart WsEnvelopeEnd b
      = { InOutEnvelopeBuffer := b, OutMessage := [], OutIsMessageEnd := true } := by
  have h := ProcessFragmentedMessage_wrapped WsEnvelopeStart WsEnvelopeEnd [] b
  have hc := ClassifyFrame_wrapped WsEnvelopeStart WsEnvelopeEnd []
  simp only [List.append_nil] at h hc
  exact ⟨hc, h⟩

/-- Two runs of the framer modelled from the spec, from an empty buffer: the frames "CaSrab" and
"CaSrxCaEd" end with a call that reports OutIsMessageEnd = true while the buffer holds "ab"; and
the single frame "ab", which is read as a middle frame, leaves "ab" in the buffer. -/
theorem FeedFrames_interleaved_example :
    (FeedFrames WsEnvelopeStart WsEnvelopeEnd []
        [['C', 'a', 'S', 'r', 'a', 'b'], ['C', 'a', 'S', 'r', 'x', 'C', 'a', 'E', 'd']]).2.getLast?
      = some (['x'], true)
    ∧ (FeedFrames WsEnvelopeStart WsEnvelopeEnd []
        [['C', 'a', 'S', 'r', 'a', 'b'], ['C', 'a', 'S', 'r', 'x', 'C', 'a', 'E', 'd']]).1
      = ['a', 'b']
    ∧ (FeedFrames WsEnvelopeStart WsEnvelopeEnd [] [['a', 'b']]).1 = ['a', 'b']
    ∧ ClassifyFrame ['a', 'b'] WsEnvelopeStart WsEnvelopeEnd = FrameKind.Middle := by
  decide

/-- The buffer of the framer modelled from the spec, in every state reached from an empty buffer:
the last call reports OutIsMessageEnd = true exactly when its frame is a final fragment or a
complete frame; after a final fragment the buffer is empty; a complete frame leaves the buffer as
it was before the call; and the buffer is non-empty only if some frame was buffered (a first
fragment or a middle frame) and every frame after it was a complete frame. -/
theorem EnvelopeBuffer_invariant (frames : List (List Char)) (f : List Char) :
    ((∃ m, (FeedFrames WsEnvelopeStart WsEnvelopeEnd [] (frames ++ [f])).2.getLast? = some (m, true))
        ↔ (ClassifyFrame f WsEnvelopeStart WsEnvelopeEnd = FrameKind.Final
            ∨ ClassifyFrame f WsEnvelopeStart WsEnvelopeEnd = FrameKind.Complete))
    ∧ (ClassifyFrame f WsEnvelopeStart WsEnvelopeEnd = FrameKind.Final →
        (FeedFrames WsEnvelopeStart WsEnvelopeEnd [] (frames ++ [f])).1 = [])
    ∧ (ClassifyFrame f WsEnvelopeStart WsEnvelopeEnd = FrameKind.Complete →
        (FeedFrames WsEnvelopeStart WsEnvelopeEnd [] (frames ++ [f])).1
          = (FeedFrames WsEnvelopeStart WsEnvelopeEnd [] frames).1)
    ∧ ((FeedFrames WsEnvelopeStart WsEnvelopeEnd [] frames).1 ≠ [] →
        ∃ pre g post, frames = pre ++ g :: post
          ∧ (ClassifyFrame g WsEnvelopeStart WsEnvelopeEnd = FrameKind.First
              ∨ ClassifyFrame g WsEnvelopeStart WsEnvelopeEnd = FrameKind.Middle)
          ∧ ∀ h ∈ post, ClassifyFrame h WsEnvelopeStart WsEnvelopeEnd = FrameKind.Complete) := by
  refine ⟨?_, ?_, ?_, FeedFrames_buffer_nonempty _ _ frames⟩
  · rw [FeedFrames_snoc]
    cases hc : ClassifyFrame f WsEnvelopeStart WsEnvelopeEnd <;>
      simp [ProcessFragmentedMessage, hc]
  · intro hc
    rw [FeedFrames_snoc]
    simp [ProcessFragmentedMessage, hc]
  · intro hc
    rw [FeedFrames_snoc]
    simp [ProcessFragmentedMessage, hc]

end Api
end AccelByte

namespace AccelByte
namespace Api

/-! ## Request correlator -/

theorem TMap.Find_of_mem {V : Type} (Key : String) (Value : V) (Map : TMap V)
    (hnd : (Map.map Prod.fst).Nodup) (hmem : (Key, Value) ∈ Map) :
    TMap.Find Key Map = some Value := by
  induction Map with
  | nil => cases hmem
  | cons e rest ih =>
    obtain ⟨k, v⟩ := e
    simp only [List.map_cons, List.nodup_cons] at hnd
    rcases List.mem_cons.mp hmem with h | h
    · cases h
      simp [TMap.Find]
    · have hk : k ≠ Key := by
        intro hk
        exact hnd.1 (List.mem_map.mpr ⟨(Key, Value), h, hk.symm⟩)
      simp [TMap.Find, hk, ih hnd.2 h]

theorem TMap.Find_eq_none {V : Type} (Key : String) (Map : TMap V)
    (h : Key ∉ Map.map Prod.fst) : TMap.Find Key Map = none := by
  induction Map with
  | nil => rfl
  | cons e rest ih =>
    obtain ⟨k, v⟩ := e
    simp only [List.map_cons, List.mem_cons, not_or] at h
    have hk : k ≠ Key := fun hk => h.1 hk.symm
    simp [TMap.Find, hk, ih h.2]

theorem Holds.keys {κ π : Type} {Maps : PendingMaps κ} {E : List (Request κ × π)}
    (h : Holds Maps E) (Kind : ResponseKind) (Key : String)
    (hk : Key ∈ (Maps Kind).map Prod.fst) :
    ∃ e ∈ E, e.1.Kind = Kind ∧ e.1.MessageId = Key := by
  obtain ⟨⟨k, v⟩, hmem, rfl⟩ := List.mem_map.mp hk
  have := ((h Kind).mem_iff).mp hmem
  obtain ⟨e, he, heq⟩ := List.mem_map.mp this
  have he2 := List.mem_filter.mp he
  refine ⟨e, he2.1, by simpa using he2.2, ?_⟩
  exact congrArg Prod.fst heq

theorem Holds.nodup_keys {κ π : Type} {Maps : PendingMaps κ} {E : List (Request κ × π)}
    (h : Holds Maps E) (hid : (E.map (fun e => e.1.MessageId)).Nodup) (Kind : ResponseKind) :
    ((Maps Kind).map Prod.fst).Nodup := by
  have hp := (h Kind).map Prod.fst
  rw [hp.nodup_iff, List.map_map]
  have hsub : ((E.filter (fun e => decide (e.1.Kind = Kind))).map (fun e => e.1.MessageId)).Sublist
      (E.map (fun e => e.1.MessageId)) := (List.filter_sublist E).map _
  exact hid.sublist hsub

theorem Holds.send {κ π : Type} {Maps : PendingMaps κ} {E : List (Request κ × π)}
    (h : Holds Maps E) (e : Request κ × π)
    (hnew : e.1.MessageId ∉ E.map (fun x => x.1.MessageId)) :
    Holds (Send Maps e.1) (E ++ [e]) := by
  intro Kind
  by_cases hk : Kind = e.1.Kind
  · have hrem : TMap.Remove e.1.MessageId (Maps Kind) = Maps Kind := by
      unfold TMap.Remove
      rw [List.filter_eq_self]
      intro a ha
      have hmem : a.1 ∈ (Maps Kind).map Prod.fst := List.mem_map.mpr ⟨a, ha, rfl⟩
      obtain ⟨x, hx, _, hxid⟩ := h.keys Kind a.1 hmem
      have hne : a.1 ≠ e.1.MessageId := by
        intro heq
        exact hnew (List.mem_map.mpr ⟨x, hx, hxid.trans heq⟩)
      simpa using hne
    have hf : (E ++ [e]).filter (fun x => decide (x.1.Kind = Kind))
        = E.filter (fun x => decide (x.1.Kind = Kind)) ++ [e] := by
      simp [List.filter_append, List.filter_cons, hk]
    simp only [Send, hk, if_true, TMap.Add]
    rw [← hk, hrem, hf, List.map_append, List.map_singleton]
    exact (List.Perm.cons _ (h Kind)).trans (List.perm_append_singleton _ _).symm
  · have hk2 : ¬ e.1.Kind = Kind := fun h2 => hk h2.symm
    have hf : (E ++ [e]).filter (fun x => decide (x.1.Kind = Kind))
        = E.filter (fun x => decide (x.1.Kind = Kind)) := by
      simp [List.filter_append, List.filter_cons, hk2]
    simp only [Send, hk, if_false]
    rw [hf]
    exact h Kind

theorem Holds.sendAll {κ π : Type} (E : List (Request κ × π)) :
    ∀ (Maps : PendingMaps κ) (E0 : List (Request κ × π)), Holds Maps E0 →
      ((E0 ++ E).map (fun x => x.1.MessageId)).Nodup →
      Holds (SendAll Maps (E.map Prod.fst)) (E0 ++ E) := by
  induction E with
  | nil => intro Maps E0 h _; simpa [SendAll] using h
  | cons e rest ih =>
    intro Maps E0 h hid
    have hid2 : (((E0 ++ [e]) ++ rest).map (fun x => x.1.MessageId)).Nodup := by
      simpa using hid
    have hnew : e.1.MessageId ∉ E0.map (fun x => x.1.MessageId) := by
      have h3 : ((E0 ++ [e]).map (fun x => x.1.MessageId)).Nodup := by
        rw [List.map_append] at hid2
        exact (List.nodup_append.mp hid2).1
      rw [List.map_append, List.map_singleton] at h3
      have h4 := List.nodup_append.mp h3
      intro hmem
      exact h4.2.2 hmem (List.mem_singleton_self _)
    have := ih (Send Maps e.1) (E0 ++ [e]) (h.send e hnew) hid2
    simpa [SendAll] using this

theorem Holds.empty {κ π : Type} : Holds (PendingMaps.Empty κ) ([] : List (Request κ × π)) := by
  intro Kind
  simp [PendingMaps.Empty]

theorem Holds.same_of_id {κ π : Type} {E : List (Request κ × π)}
    (hid : (E.map (fun x => x.1.MessageId)).Nodup) {x e : Request κ × π}
    (hx : x ∈ E) (he : e ∈ E) (h : x.1.MessageId = e.1.MessageId) : x = e :=
  List.inj_on_of_nodup_map hid hx he h

theorem Holds.onResponse {κ π : Type} {Maps : PendingMaps κ} {E : List (Request κ × π)}
    (h : Holds Maps E) (hid : (E.map (fun x => x.1.MessageId)).Nodup)
    (e : Request κ × π) (he : e ∈ E) :
    (OnResponse Maps (ResponseTo e)).2 = [Owed e]
    ∧ Holds (OnResponse Maps (ResponseTo e)).1
        (E.filter (fun x => decide (x.1.MessageId ≠ e.1.MessageId))) := by
  have hmem : (e.1.MessageId, e.1.OnSuccess) ∈ Maps e.1.Kind := by
    rw [(h e.1.Kind).mem_iff]
    exact List.mem_map.mpr ⟨e, List.mem_filter.mpr ⟨he, by simp⟩, rfl⟩
  have hfind := TMap.Find_of_mem e.1.MessageId e.1.OnSuccess (Maps e.1.Kind)
    (h.nodup_keys hid e.1.Kind) hmem
  simp only [OnResponse, ResponseTo, hfind, Owed, true_and]
  intro Kind
  by_cases hk : Kind = e.1.Kind
  · simp only [hk, if_true, TMap.Remove]
    have hp := (h e.1.Kind).filter (fun Entry => decide (Entry.1 ≠ e.1.MessageId))
    refine hp.trans (List.Perm.of_eq ?_)
    rw [List.filter_map, List.filter_filter, List.filter_filter]
    congr 1
    apply List.filter_congr
    intro x _
    simp [Bool.and_comm]
  · simp only [hk, if_false]
    refine (h Kind).trans (List.Perm.of_eq ?_)
    rw [List.filter_filter]
    congr 1
    apply List.filter_congr
    intro x hx
    by_cases hxk : x.1.Kind = Kind
    · have hne : x.1.MessageId ≠ e.1.MessageId := by
        intro heq
        have := Holds.same_of_id hid hx he heq
        exact hk (hxk.symm.trans (by rw [this]))
      simp [hxk, hne]
    · simp [hxk]

theorem Holds.deliverAll {κ π : Type} (order : List (Request κ × π)) :
    ∀ (Maps : PendingMaps κ) (E : List (Request κ × π)), Holds Maps E →
      (E.map (fun x => x.1.MessageId)).Nodup → order.Perm E →
      (∀ Kind, (DeliverAll Maps (order.map ResponseTo)).1 Kind = [])
      ∧ (DeliverAll Maps (order.map ResponseTo)).2 = order.map Owed := by
  induction order with
  | nil =>
    intro Maps E h _ hp
    have hE : E = [] := List.Perm.eq_nil hp.symm
    subst hE
    refine ⟨fun Kind => ?_, rfl⟩
    have := h Kind
    simpa [DeliverAll] using this
  | cons e rest ih =>
    intro Maps E h hid hp
    have he : e ∈ E := hp.subset (List.mem_cons_self _ _)
    obtain ⟨hinv, hholds⟩ := h.onResponse hid e he
    have hid0 : ((e :: rest).map (fun x => x.1.MessageId)).Nodup :=
      ((hp.map _).nodup_iff).mpr hid
    have hrest : rest.Perm (E.filter (fun x => decide (x.1.MessageId ≠ e.1.MessageId))) := by
      have hf := hp.filter (fun x => decide (x.1.MessageId ≠ e.1.MessageId))
      have h1 : (e :: rest).filter (fun x => decide (x.1.MessageId ≠ e.1.MessageId)) = rest := by
        rw [List.filter_cons]
        simp only [ne_eq, not_true_eq_false, decide_False, Bool.false_eq_true, if_false]
        rw [List.filter_eq_self]
        intro a ha
        simp only [List.map_cons, List.nodup_cons] at hid0
        have hne : a.1.MessageId ≠ e.1.MessageId := by
          intro heq
          exact hid0.1 (List.mem_map.mpr ⟨a, ha, heq⟩)
        simpa using hne
      rw [h1] at hf
      exact hf
    have hid2 : ((E.filter (fun x => decide (x.1.MessageId ≠ e.1.MessageId))).map
        (fun x => x.1.MessageId)).Nodup :=
      hid.sublist ((List.filter_sublist E).map _)
    obtain ⟨hempty, hlog⟩ := ih _ _ hholds hid2 hrest
    refine ⟨?_, ?_⟩
    · simpa [DeliverAll] using hempty
    · simp only [List.map_cons, DeliverAll, hinv, hlog, List.singleton_append]

/-- Claim C5: N requests with pairwise distinct message ids are sent from empty pending maps,
each registering its own success delegate in the map of its kind, and the N matching responses
are delivered in any order (reverse order included): then the delegates invoked are, response by
response, the success delegate of the request with that id with the payload of that response,
so each request's delegate is invoked exactly once, and all pending maps are empty afterwards. -/
theorem DeliverAll_any_order {κ π : Type} (sent order : List (Request κ × π))
    (hid : (sent.map (fun e => e.1.MessageId)).Nodup) (hperm : order.Perm sent) :
    (∀ Kind, (DeliverAll (SendAll (PendingMaps.Empty κ) (sent.map Prod.fst))
        (order.map ResponseTo)).1 Kind = [])
    ∧ (DeliverAll (SendAll (PendingMaps.Empty κ) (sent.map Prod.fst))
        (order.map ResponseTo)).2 = order.map Owed
    ∧ (DeliverAll (SendAll (PendingMaps.Empty κ) (sent.map Prod.fst))
        (order.map ResponseTo)).2.Perm (sent.map Owed) := by
  have hs := Holds.sendAll sent (PendingMaps.Empty κ) [] Holds.empty (by simpa using hid)
  rw [List.nil_append] at hs
  obtain ⟨h1, h2⟩ := Holds.deliverAll order _ sent hs hid hperm
  refine ⟨h1, h2, ?_⟩
  rw [h2]
  exact hperm.map Owed

/-- Witness for claim C5: three requests of two kinds, answered in reverse order. -/
theorem DeliverAll_any_order_witness :
    (∀ Kind, (DeliverAll (SendAll (PendingMaps.Empty Nat)
        ([(⟨ResponseKind.CreateTopic, "id-1", 10⟩, "one"), (⟨ResponseKind.SendChat, "id-2", 20⟩, "two"),
          ((⟨ResponseKind.CreateTopic, "id-3", 30⟩ : Request Nat), "three")].map Prod.fst))
        (([(⟨ResponseKind.CreateTopic, "id-1", 10⟩, "one"), (⟨ResponseKind.SendChat, "id-2", 20⟩, "two"),
          ((⟨ResponseKind.CreateTopic, "id-3", 30⟩ : Request Nat), "three")].reverse).map
            ResponseTo)).1 Kind = [])
    ∧ (DeliverAll (SendAll (PendingMaps.Empty Nat)
        ([(⟨ResponseKind.CreateTopic, "id-1", 10⟩, "one"), (⟨ResponseKind.SendChat, "id-2", 20⟩, "two"),
          ((⟨ResponseKind.CreateTopic, "id-3", 30⟩ : Request Nat), "three")].map Prod.fst))
        (([(⟨ResponseKind.CreateTopic, "id-1", 10⟩, "one"), (⟨ResponseKind.SendChat, "id-2", 20⟩, "two"),
          ((⟨ResponseKind.CreateTopic, "id-3", 30⟩ : Request Nat), "three")].reverse).map
            ResponseTo)).2
      = [Invocation.Success 30 "three", Invocation.Success 20 "two", Invocation.Success 10 "one"] :=
  ⟨(DeliverAll_any_order
      [(⟨ResponseKind.CreateTopic, "id-1", 10⟩, "one"), (⟨ResponseKind.SendChat, "id-2", 20⟩, "two"),
        ((⟨ResponseKind.CreateTopic, "id-3", 30⟩ : Request Nat), "three")]
      _ (by decide) (List.reverse_perm _)).1,
   (DeliverAll_any_order
      [(⟨ResponseKind.CreateTopic, "id-1", 10⟩, "one"), (⟨ResponseKind.SendChat, "id-2", 20⟩, "two"),
        ((⟨ResponseKind.CreateTopic, "id-3", 30⟩ : Request Nat), "three")]
      _ (by decide) (List.reverse_perm _)).2.1⟩

/-- Claim C6: an inbound response whose id is not a key of the pending map of its kind invokes
no delegate (neither a success nor an error delegate) and leaves every pending map as it was;
the handler is a total function, so nothing is raised. -/
theorem OnResponse_unknown_id {κ π : Type} (Maps : PendingMaps κ) (R : Response π)
    (h : R.MessageId ∉ (Maps R.Kind).map Prod.fst) :
    OnResponse Maps R = (Maps, []) := by
  simp [OnResponse, TMap.Find_eq_none R.MessageId (Maps R.Kind) h]

/-- Witness for claim C6: with one request "id-1" pending, a response carrying "id-9". -/
theorem OnResponse_unknown_id_witness :
    OnResponse (Send (PendingMaps.Empty Nat) ⟨ResponseKind.SendChat, "id-1", 10⟩)
        (⟨ResponseKind.SendChat, "id-9", "late"⟩ : Response String)
      = (Send (PendingMaps.Empty Nat) ⟨ResponseKind.SendChat, "id-1", 10⟩, []) :=
  OnResponse_unknown_id _ _ (by decide)

/-- A response carrying the id of a pending request fires that request's delegate; the same id
under another kind fires nothing; a request registered again under the same id replaces the
delegate. -/
theorem OnResponse_examples :
    (OnResponse (Send (PendingMaps.Empty Nat) ⟨ResponseKind.SendChat, "id-1", 10⟩)
        (⟨ResponseKind.SendChat, "id-1", "late"⟩ : Response String)).2
      = [Invocation.Success 10 "late"]
    ∧ (OnResponse (Send (PendingMaps.Empty Nat) ⟨ResponseKind.SendChat, "id-1", 10⟩)
        (⟨ResponseKind.QueryChat, "id-1", "late"⟩ : Response String)).2 = []
    ∧ (OnResponse
        (Send (Send (PendingMaps.Empty Nat) ⟨ResponseKind.SendChat, "id-1", 10⟩)
          ⟨ResponseKind.SendChat, "id-1", 11⟩)
        (⟨ResponseKind.SendChat, "id-1", "late"⟩ : Response String)).2
      = [Invocation.Success 11 "late"] := by
  decide

end Api
end AccelByte

namespace AccelByte
namespace GameServerApi

/-! ## The AMS connection handler `ServerAMS` -/

/-- Counterexample to claim C8 as stated: a new handler with DS id "ds-1" calls Connect (which
creates the socket), then Disconnect twice; the second Disconnect calls Disconnect on the
transport socket once more. -/
theorem Disconnect_twice_counterexample :
    (ServerAMS.Disconnect FlagSocket false
        (ServerAMS.Disconnect FlagSocket false
          (ServerAMS.Connect FlagSocket (ServerAMS.New Bool "ds-1" "ws://ams" 15)).1).1).2
      = [Effect.WebSocketDisconnect false] := by
  decide

/-- Claim C8, amended: for every state, a Disconnect that follows a Disconnect removes no ticker
and changes no member of the handler; when no socket exists it does nothing at all, and when a
socket exists its only effect is one more call of Disconnect on that socket. -/
theorem Disconnect_twice {σ : Type} (Api : WebSocketApi σ) (bFirst bSecond : Bool)
    (S : ServerAMS σ) :
    ServerAMS.Disconnect Api bSecond (ServerAMS.Disconnect Api bFirst S).1
      = ({ (ServerAMS.Disconnect Api bFirst S).1 with
            WebSocket := (ServerAMS.Disconnect Api bFirst S).1.WebSocket.map
              (Api.Disconnect bSecond) },
         if S.WebSocket.isSome then [Effect.WebSocketDisconnect bSecond] else []) := by
  obtain ⟨_, _, _, Socket, _, Handle, _, _, _, _, _, _, _⟩ := S
  cases Socket <;> cases Handle <;> simp [ServerAMS.Disconnect]

/-- Claim C9: in every state in which the transport socket exists and reports connected and the
DS id is not empty, Connect makes no call on the transport (no Connect, no creation or
replacement of the socket, no attaching of a handler) and leaves the state unchanged. -/
theorem Connect_when_connected {σ : Type} (Api : WebSocketApi σ) (S : ServerAMS σ) (Socket : σ)
    (hDSId : S.DSId.isEmpty = false) (hSocket : S.WebSocket = some Socket)
    (hConnected : Api.IsConnected Socket = true) :
    ServerAMS.Connect Api S = (S, []) := by
  simp [ServerAMS.Connect, hDSId, hSocket, hConnected]

/-- Witness for claim C9: a handler with DS id "ds-1" whose socket reports connected. -/
theorem Connect_when_connected_witness :
    ServerAMS.Connect FlagSocket
        { ServerAMS.New Bool "ds-1" "ws://ams" 15 with WebSocket := some true }
      = ({ ServerAMS.New Bool "ds-1" "ws://ams" 15 with WebSocket := some true }, []) :=
  Connect_when_connected FlagSocket _ true (by decide) rfl rfl

/-- Counterexample to claim C10 as stated: a new handler with DS id "ds-1" calls Connect; the
socket then exists and does not yet report connected; a second Connect calls Connect on the
transport socket again. -/
theorem Connect_while_connecting_counterexample :
    (ServerAMS.Connect FlagSocket (ServerAMS.New Bool "ds-1" "ws://ams" 15)).1.WebSocket
      = some false
    ∧ FlagSocket.IsConnected false = false
    ∧ Effect.WebSocketConnect
        ∈ (ServerAMS.Connect FlagSocket (ServerAMS.New Bool "ds-1" "ws://ams" 15)).2
    ∧ (ServerAMS.Connect FlagSocket
        (ServerAMS.Connect FlagSocket (ServerAMS.New Bool "ds-1" "ws://ams" 15)).1).2
      = [Effect.WebSocketConnect] := by
  decide

/-- Claim C10, amended: a Connect issued while the socket exists and does not report connected
creates no second socket and attaches no handler again; when the DS id is not empty it calls
Connect on the existing transport socket once more, which is its only effect, and when the DS id
is empty it does nothing. -/
theorem Connect_while_connecting {σ : Type} (Api : WebSocketApi σ) (S : ServerAMS σ) (Socket : σ)
    (hSocket : S.WebSocket = some Socket) (hConnected : Api.IsConnected Socket = false) :
    ServerAMS.Connect Api S
      = if S.DSId.isEmpty then (S, [])
        else ({ S with WebSocket := some (Api.Connect Socket) }, [Effect.WebSocketConnect]) := by
  by_cases hDSId : S.DSId.isEmpty = true
  · simp [ServerAMS.Connect, hDSId]
  · simp [ServerAMS.Connect, hDSId, hSocket, hConnected]

/-- Witness for claim C10, amended: a handler with DS id "ds-1" whose socket exists and is not
connected. -/
theorem Connect_while_connecting_witness :
    ServerAMS.Connect FlagSocket
        { ServerAMS.New Bool "ds-1" "ws://ams" 15 with WebSocket := some false }
      = ({ ServerAMS.New Bool "ds-1" "ws://ams" 15 with WebSocket := some false },
         [Effect.WebSocketConnect]) :=
  Connect_while_connecting FlagSocket _ false rfl rfl

/-- Claim C11: for every state, IsConnected returns true if and only if a transport socket exists
and that socket reports connected; with no socket it returns false (it is a pure query and
returns nothing but the answer, so the socket is not touched). -/
theorem IsConnected_iff {σ : Type} (Api : WebSocketApi σ) (S : ServerAMS σ) :
    (ServerAMS.IsConnected Api S = true
        ↔ ∃ Socket, S.WebSocket = some Socket ∧ Api.IsConnected Socket = true)
    ∧ (S.WebSocket = none → ServerAMS.IsConnected Api S = false) := by
  cases h : S.WebSocket <;> simp [ServerAMS.IsConnected, h]

/-- Witness for claim C11: a new handler has no socket and is not connected. -/
theorem IsConnected_iff_witness :
    ServerAMS.IsConnected FlagSocket (ServerAMS.New Bool "ds-1" "ws://ams" 15) = false :=
  (IsConnected_iff FlagSocket (ServerAMS.New Bool "ds-1" "ws://ams" 15)).2 rfl

/-- Counterexample to claim C12 as stated: after Connect on a new handler the socket exists and
does not report connected, so the handler is not connected; Disconnect nevertheless calls
Disconnect on the transport socket. -/
theorem Disconnect_not_connected_counterexample :
    ServerAMS.IsConnected FlagSocket
        (ServerAMS.Connect FlagSocket (ServerAMS.New Bool "ds-1" "ws://ams" 15)).1 = false
    ∧ (ServerAMS.Disconnect FlagSocket false
        (ServerAMS.Connect FlagSocket (ServerAMS.New Bool "ds-1" "ws://ams" 15)).1).2
      = [Effect.WebSocketDisconnect false] := by
  decide

/-- Claim C12, amended: Disconnect does nothing (no effect, no change of state) exactly when no
transport socket exists; when a socket exists, whether or not it reports connected, Disconnect
calls Disconnect(bForceCleanup) on it and, if the heartbeat ticker handle is valid, removes the
ticker, resets the handle and clears bHeartbeatJobStarted; it changes nothing else. -/
theorem Disconnect_acts_iff_socket {σ : Type} (Api : WebSocketApi σ) (bForceCleanup : Bool)
    (S : ServerAMS σ) :
    ((ServerAMS.Disconnect Api bForceCleanup S).2 = [] ↔ S.WebSocket = none)
    ∧ (S.WebSocket = none → ServerAMS.Disconnect Api bForceCleanup S = (S, []))
    ∧ (∀ Socket, S.WebSocket = some Socket → S.AMSHeartbeatTickDelegateHandle = none →
        ServerAMS.Disconnect Api bForceCleanup S
          = ({ S with WebSocket := some (Api.Disconnect bForceCleanup Socket) },
             [Effect.WebSocketDisconnect bForceCleanup]))
    ∧ (∀ Socket Handle, S.WebSocket = some Socket →
        S.AMSHeartbeatTickDelegateHandle = some Handle →
        ServerAMS.Disconnect Api bForceCleanup S
          = ({ S with
                WebSocket := some (Api.Disconnect bForceCleanup Socket)
                CoreTicker := S.CoreTicker.filter (fun H => decide (H ≠ Handle))
                AMSHeartbeatTickDelegateHandle := none
                bHeartbeatJobStarted := false },
             [Effect.WebSocketDisconnect bForceCleanup, Effect.RemoveTicker Handle])) := by
  cases hs : S.WebSocket <;> cases hh : S.AMSHeartbeatTickDelegateHandle <;>
    simp [ServerAMS.Disconnect, hs, hh]

/-- Witness for claim C12, amended: a handler that connected, was connected by the transport,
sent the ready message (ticker 1 registered) and then lost the connection: the socket exists and
does not report connected, and Disconnect tells it to disconnect, removes ticker 1, resets the
handle and clears bHeartbeatJobStarted. -/
theorem Disconnect_acts_iff_socket_witness :
    ServerAMS.IsConnected FlagSocket
        (ServerAMS.Reached FlagSocket SampleJson "ds-1" "ws://ams" 15
          [Action.Connect, Action.Transport true, Action.SendReadyMessage,
           Action.Transport false]) = false
    ∧ ServerAMS.Disconnect FlagSocket false
        (ServerAMS.Reached FlagSocket SampleJson "ds-1" "ws://ams" 15
          [Action.Connect, Action.Transport true, Action.SendReadyMessage,
           Action.Transport false])
      = ({ ServerAMS.Reached FlagSocket SampleJson "ds-1" "ws://ams" 15
            [Action.Connect, Action.Transport true, Action.SendReadyMessage,
             Action.Transport false] with
            WebSocket := some (FlagSocket.Disconnect false false)
            CoreTicker := []
            AMSHeartbeatTickDelegateHandle := none
            bHeartbeatJobStarted := false },
         [Effect.WebSocketDisconnect false, Effect.RemoveTicker 1]) :=
  ⟨by decide,
   (Disconnect_acts_iff_socket FlagSocket false
      (ServerAMS.Reached FlagSocket SampleJson "ds-1" "ws://ams" 15
        [Action.Connect, Action.Transport true, Action.SendReadyMessage,
         Action.Transport false])).2.2.2 false 1 (by decide) (by decide)⟩

/-- Claim C16: each transport event reaches exactly its own delegate: the connected event
executes the connect-success delegate once, the error event executes the connect-error delegate
once with exactly the error text, the closed event executes the connection-closed delegate once
with exactly the status code, reason and clean flag; nothing else is executed, an unbound
delegate means nothing is executed, and the state is left as it was. -/
theorem TransportEvents_reach_own_delegate {σ : Type} (S : ServerAMS σ) (Error Reason : String)
    (StatusCode : Int) (bWasClean : Bool) :
    ServerAMS.OnConnected S
      = (S, (S.OnConnectSuccessDelegate.map Effect.ExecuteConnectSuccess).toList)
    ∧ ServerAMS.OnConnectionError Error S
      = (S, (S.OnConnectErrorDelegate.map
          (fun Bound => Effect.ExecuteConnectError Bound Error)).toList)
    ∧ ServerAMS.OnClosed StatusCode Reason bWasClean S
      = (S, (S.OnConnectionClosedDelegate.map
          (fun Bound => Effect.ExecuteConnectionClosed Bound StatusCode Reason bWasClean)).toList) := by
  refine ⟨?_, ?_, ?_⟩
  · cases h : S.OnConnectSuccessDelegate <;> simp [ServerAMS.OnConnected, h]
  · cases h : S.OnConnectErrorDelegate <;> simp [ServerAMS.OnConnectionError, h]
  · cases h : S.OnConnectionClosedDelegate <;> simp [ServerAMS.OnClosed, h]

/-- Claim C18: for every inbound message, OnMessage executes the currently registered drain
delegate exactly once if the message is not empty, deserializes to a JSON object and that object
has a field "drain" of type object, and executes nothing otherwise; with no delegate registered
nothing is executed; and after SetOnAMSDrainReceivedDelegate(A) then
SetOnAMSDrainReceivedDelegate(B) the registered delegate is B alone. -/
theorem OnMessage_routes_drain {σ ω : Type} (Json : JsonApi ω) (Message : String)
    (S : ServerAMS σ) (A B : Delegate) :
    (∀ MessageObject, Message.isEmpty = false → Json.Deserialize Message = some MessageObject →
        Json.HasTypedFieldObject MessageObject "drain" = true →
        ServerAMS.OnMessage Json Message S
          = (S, (S.OnAMSDrainReceivedDelegate.map Effect.ExecuteAMSDrainReceived).toList))
    ∧ ((Message.isEmpty = true ∨ Json.Deserialize Message = none
          ∨ ∃ MessageObject, Json.Deserialize Message = some MessageObject
              ∧ Json.HasTypedFieldObject MessageObject "drain" = false) →
        ServerAMS.OnMessage Json Message S = (S, []))
    ∧ ServerAMS.SetOnAMSDrainReceivedDelegate B (ServerAMS.SetOnAMSDrainReceivedDelegate A S).1
        = ({ S with OnAMSDrainReceivedDelegate := B }, []) := by
  refine ⟨?_, ?_, ?_⟩
  · intro MessageObject h1 h2 h3
    cases h : S.OnAMSDrainReceivedDelegate <;> simp [ServerAMS.OnMessage, h1, h2, h3, h]
  · rintro (h | h | ⟨MessageObject, h1, h2⟩)
    · simp [ServerAMS.OnMessage, h]
    · by_cases he : Message.isEmpty = true <;> simp [ServerAMS.OnMessage, he, h]
    · by_cases he : Message.isEmpty = true <;> simp [ServerAMS.OnMessage, he, h1, h2]
  · obtain ⟨_, _, _, _, _, _, _, _, _, _, Drain, _, _⟩ := S
    cases Drain <;> cases A <;> simp [ServerAMS.SetOnAMSDrainReceivedDelegate]

/-- Witness for claim C18: with the drain delegate set to 7 and then to 8, the AMS drain message
executes delegate 8 once, and a text that is not JSON executes nothing. -/
theorem OnMessage_routes_drain_witness :
    ServerAMS.OnMessage SampleJson "\x7b\"drain\":\x7b\x7d\x7d"
        { ServerAMS.New Bool "ds-1" "ws://ams" 15 with OnAMSDrainReceivedDelegate := some 8 }
      = ({ ServerAMS.New Bool "ds-1" "ws://ams" 15 with OnAMSDrainReceivedDelegate := some 8 },
         [Effect.ExecuteAMSDrainReceived 8])
    ∧ ServerAMS.OnMessage SampleJson "drain"
        { ServerAMS.New Bool "ds-1" "ws://ams" 15 with OnAMSDrainReceivedDelegate := some 8 }
      = ({ ServerAMS.New Bool "ds-1" "ws://ams" 15 with OnAMSDrainReceivedDelegate := some 8 },
         []) :=
  ⟨(OnMessage_routes_drain SampleJson "\x7b\"drain\":\x7b\x7d\x7d"
      { ServerAMS.New Bool "ds-1" "ws://ams" 15 with OnAMSDrainReceivedDelegate := some 8 }
      (some 7) (some 8)).1 true (by decide) (by decide) (by decide),
   (OnMessage_routes_drain SampleJson "drain"
      { ServerAMS.New Bool "ds-1" "ws://ams" 15 with OnAMSDrainReceivedDelegate := some 8 }
      (some 7) (some 8)).2.1 (Or.inr (Or.inl (by decide)))⟩

theorem ServerAMS.HeartbeatInv_New (σ : Type) (DSId Url : String) (Interval : Nat) :
    ServerAMS.HeartbeatInv (ServerAMS.New σ DSId Url Interval) [] := by
  simp [ServerAMS.HeartbeatInv, ServerAMS.New]

theorem ServerAMS.HeartbeatInv_Step {σ ω : Type} (Api : WebSocketApi σ) (Json : JsonApi ω)
    (S : ServerAMS σ) (History : List Effect) (A : Action σ)
    (h : ServerAMS.HeartbeatInv S History) :
    ServerAMS.HeartbeatInv (ServerAMS.Step Api Json S A).1
        (History ++ (ServerAMS.Step Api Json S A).2)
      ∧ (ServerAMS.Step Api Json S A).1.DSId = S.DSId := by
  obtain ⟨DSId, Url, SetInt, Socket, Int, Handle, Started, D1, D2, D3, D4, Ticker, Next⟩ := S
  simp only [ServerAMS.HeartbeatInv] at h ⊢
  cases A with
  | Connect =>
    cases Socket <;> cases Handle <;>
      simp_all [ServerAMS.Step, ServerAMS.Connect, ServerAMS.CreateWebSocket] <;>
      split <;> simp_all <;> split <;> simp_all
  | Disconnect b =>
    cases Socket <;> cases Handle <;> simp_all [ServerAMS.Step, ServerAMS.Disconnect]
  | UnbindDelegates => simpa [ServerAMS.Step, ServerAMS.UnbindDelegates] using h
  | SetOnConnectSuccess D => simpa [ServerAMS.Step, ServerAMS.SetOnConnectSuccess] using h
  | SetOnConnectError D => simpa [ServerAMS.Step, ServerAMS.SetOnConnectError] using h
  | SetOnConnectionClosed D => simpa [ServerAMS.Step, ServerAMS.SetOnConnectionClosed] using h
  | SetOnAMSDrainReceivedDelegate D =>
    cases D4 <;> simpa [ServerAMS.Step, ServerAMS.SetOnAMSDrainReceivedDelegate] using h
  | SendReadyMessage =>
    cases Socket <;> cases Handle <;> cases Started <;>
      simp_all [ServerAMS.Step, ServerAMS.SendReadyMessage] <;>
      split <;> simp_all
  | SendHeartbeat =>
    cases Socket <;> cases Handle <;>
      simp_all [ServerAMS.Step, ServerAMS.SendHeartbeat] <;>
      split <;> simp_all
  | PeriodicHeartbeat DeltaTime =>
    cases Socket <;> cases Handle <;>
      simp_all [ServerAMS.Step, ServerAMS.PeriodicHeartbeat, ServerAMS.SendHeartbeat] <;>
      split <;> simp_all
  | OnConnected =>
    cases D1 <;> simp_all [ServerAMS.Step, ServerAMS.OnConnected]
  | OnMessage Message =>
    simp only [ServerAMS.Step, ServerAMS.OnMessage]
    split
    · simpa using h
    · split
      · simpa using h
      · split
        · cases D4 <;> simp_all
        · simpa using h
  | OnConnectionError Error =>
    cases D2 <;> simp_all [ServerAMS.Step, ServerAMS.OnConnectionError]
  | OnClosed StatusCode Reason bWasClean =>
    cases D3 <;> simp_all [ServerAMS.Step, ServerAMS.OnClosed]
  | Transport NewSocket =>
    cases Socket <;> simp_all [ServerAMS.Step]

theorem ServerAMS.HeartbeatInv_Run {σ ω : Type} (Api : WebSocketApi σ) (Json : JsonApi ω)
    (Actions : List (Action σ)) :
    ∀ (S : ServerAMS σ) (History : List Effect), ServerAMS.HeartbeatInv S History →
      ServerAMS.HeartbeatInv (ServerAMS.Run Api Json S Actions).1
          (History ++ (ServerAMS.Run Api Json S Actions).2)
        ∧ (ServerAMS.Run Api Json S Actions).1.DSId = S.DSId := by
  induction Actions with
  | nil => intro S History h; simpa [ServerAMS.Run] using h
  | cons A Rest ih =>
    intro S History h
    obtain ⟨h1, hd1⟩ := ServerAMS.HeartbeatInv_Step Api Json S History A h
    obtain ⟨h2, hd2⟩ := ih _ _ h1
    refine ⟨?_, ?_⟩
    · simpa [ServerAMS.Run, List.append_assoc] using h2
    · simpa [ServerAMS.Run, hd1] using hd2

theorem ServerAMS.HeartbeatInv_reachable {σ ω : Type} (Api : WebSocketApi σ) (Json : JsonApi ω)
    (DSId Url : String) (Interval : Nat) (Actions : List (Action σ)) :
    ServerAMS.HeartbeatInv (ServerAMS.Run Api Json (ServerAMS.New σ DSId Url Interval) Actions).1
        (ServerAMS.Run Api Json (ServerAMS.New σ DSId Url Interval) Actions).2
      ∧ (ServerAMS.Run Api Json (ServerAMS.New σ DSId Url Interval) Actions).1.DSId = DSId := by
  have h := ServerAMS.HeartbeatInv_Run Api Json Actions _ [] (ServerAMS.HeartbeatInv_New σ DSId Url Interval)
  simpa [ServerAMS.New] using h

/-- Claim C13: in every state reached from a new handler by any sequence of actions (Connect,
Disconnect, SendReadyMessage, the transport events and the other member functions), after
Disconnect returns no heartbeat registration remains: the ticker handle is not valid,
bHeartbeatJobStarted is false and no ticker is registered; and the transport socket, if present,
has been told to disconnect. -/
theorem Disconnect_cancels_heartbeat {σ ω : Type} (Api : WebSocketApi σ) (Json : JsonApi ω)
    (DSId Url : String) (Interval : Nat) (Actions : List (Action σ)) (bForceCleanup : Bool) :
    (ServerAMS.Disconnect Api bForceCleanup
        (ServerAMS.Reached Api Json DSId Url Interval Actions)).1.AMSHeartbeatTickDelegateHandle
      = none
    ∧ (ServerAMS.Disconnect Api bForceCleanup
        (ServerAMS.Reached Api Json DSId Url Interval Actions)).1.bHeartbeatJobStarted = false
    ∧ (ServerAMS.Disconnect Api bForceCleanup
        (ServerAMS.Reached Api Json DSId Url Interval Actions)).1.CoreTicker = []
    ∧ (∀ Socket, (ServerAMS.Reached Api Json DSId Url Interval Actions).WebSocket = some Socket →
        Effect.WebSocketDisconnect bForceCleanup
          ∈ (ServerAMS.Disconnect Api bForceCleanup
              (ServerAMS.Reached Api Json DSId Url Interval Actions)).2) := by
  obtain ⟨h, _⟩ := ServerAMS.HeartbeatInv_reachable Api Json DSId Url Interval Actions
  unfold ServerAMS.Reached
  generalize (ServerAMS.Run Api Json (ServerAMS.New σ DSId Url Interval) Actions).2 = History at h
  generalize (ServerAMS.Run Api Json (ServerAMS.New σ DSId Url Interval) Actions).1 = S at h ⊢
  obtain ⟨_, _, _, Socket, _, Handle, Started, _, _, _, _, Ticker, _⟩ := S
  simp only [ServerAMS.HeartbeatInv] at h
  cases Socket <;> cases Handle <;> cases Started <;> simp_all [ServerAMS.Disconnect]

/-- Witness for claim C13: a handler that connected, was connected by the transport, sent the
ready message and so registered the heartbeat ticker: after Disconnect the socket has been told
to disconnect. -/
theorem Disconnect_cancels_heartbeat_witness :
    Effect.WebSocketDisconnect false
      ∈ (ServerAMS.Disconnect FlagSocket false
          (ServerAMS.Reached FlagSocket SampleJson "ds-1" "ws://ams" 15
            [Action.Connect, Action.Transport true, Action.OnConnected,
             Action.SendReadyMessage])).2 :=
  (Disconnect_cancels_heartbeat FlagSocket SampleJson "ds-1" "ws://ams" 15
    [Action.Connect, Action.Transport true, Action.OnConnected, Action.SendReadyMessage]
    false).2.2.2 true (by decide)

/-- Claim C14: in every state reached from a new handler by any sequence of actions, the number
of heartbeat tickers registered is 0 or 1, and bHeartbeatJobStarted is true exactly when one is
registered; in particular a SendReadyMessage that follows a SendReadyMessage registers no
ticker. -/
theorem Heartbeat_at_most_one {σ ω : Type} (Api : WebSocketApi σ) (Json : JsonApi ω)
    (DSId Url : String) (Interval : Nat) (Actions : List (Action σ)) :
    (ServerAMS.Reached Api Json DSId Url Interval Actions).CoreTicker.length ≤ 1
    ∧ ((ServerAMS.Reached Api Json DSId Url Interval Actions).bHeartbeatJobStarted = true
        ↔ (ServerAMS.Reached Api Json DSId Url Interval Actions).CoreTicker.length = 1)
    ∧ (∀ Handle Period, Effect.AddTicker Handle Period
        ∉ (ServerAMS.SendReadyMessage Api
            (ServerAMS.SendReadyMessage Api
              (ServerAMS.Reached Api Json DSId Url Interval Actions)).1).2) := by
  obtain ⟨h, _⟩ := ServerAMS.HeartbeatInv_reachable Api Json DSId Url Interval Actions
  unfold ServerAMS.Reached
  generalize (ServerAMS.Run Api Json (ServerAMS.New σ DSId Url Interval) Actions).2 = History at h
  generalize (ServerAMS.Run Api Json (ServerAMS.New σ DSId Url Interval) Actions).1 = S at h ⊢
  obtain ⟨Id, _, _, Socket, _, Handle, Started, _, _, _, _, Ticker, _⟩ := S
  simp only [ServerAMS.HeartbeatInv] at h
  refine ⟨?_, ?_, ?_⟩
  · cases Handle <;> simp_all
  · cases Handle <;> cases Started <;> simp_all
  · intro H P
    cases Socket with
    | none => simp [ServerAMS.SendReadyMessage]
    | some Sock =>
      by_cases hc : Api.IsConnected Sock = true
      · cases Started
        · by_cases hc2 : Api.IsConnected (Api.Send (ReadyMessage Id) Sock) = true <;>
            simp [ServerAMS.SendReadyMessage, hc, hc2]
        · by_cases hc2 : Api.IsConnected (Api.Send (ReadyMessage Id) Sock) = true <;>
            simp [ServerAMS.SendReadyMessage, hc, hc2]
      · simp [ServerAMS.SendReadyMessage, hc]

/-- Counterexample to claim C15 as stated: a handler connects, the transport opens the
connection, the ready message is sent and the heartbeat ticker registered; then the transport
loses the connection and reports closed.  Afterwards the ticker is still registered although the
socket does not report connected. -/
theorem Heartbeat_after_close_counterexample :
    (ServerAMS.Reached FlagSocket SampleJson "ds-1" "ws://ams" 15
        [Action.Connect, Action.Transport true, Action.OnConnected, Action.SendReadyMessage,
         Action.Transport false, Action.OnClosed 1006 "lost" false]).CoreTicker = [1]
    ∧ (ServerAMS.Reached FlagSocket SampleJson "ds-1" "ws://ams" 15
        [Action.Connect, Action.Transport true, Action.OnConnected, Action.SendReadyMessage,
         Action.Transport false, Action.OnClosed 1006 "lost" false]).AMSHeartbeatTickDelegateHandle
      = some 1
    ∧ ServerAMS.IsConnected FlagSocket
        (ServerAMS.Reached FlagSocket SampleJson "ds-1" "ws://ams" 15
          [Action.Connect, Action.Transport true, Action.OnConnected, Action.SendReadyMessage,
           Action.Transport false, Action.OnClosed 1006 "lost" false]) = false := by
  decide

/-- Claim C15, amended: in every state reached from a new handler in which a heartbeat ticker is
registered, the transport socket exists and a ready message has been sent.  The socket need not
report connected: the closed event (OnClosed) changes nothing in the handler, so the
registration stays, and while the handler is not connected the ticker's PeriodicHeartbeat sends
nothing and keeps the ticker.  Of the calls and events a handler receives, none but Disconnect
removes or changes the registration. -/
theorem Heartbeat_registration_scope {σ ω : Type} (Api : WebSocketApi σ) (Json : JsonApi ω)
    (DSId Url : String) (Interval : Nat) (Actions : List (Action σ)) :
    ((ServerAMS.Reached Api Json DSId Url Interval Actions).CoreTicker ≠ [] →
        (ServerAMS.Reached Api Json DSId Url Interval Actions).WebSocket.isSome = true
        ∧ Effect.WebSocketSend (ReadyMessage DSId)
            ∈ (ServerAMS.Run Api Json (ServerAMS.New σ DSId Url Interval) Actions).2)
    ∧ (∀ StatusCode Reason bWasClean,
        (ServerAMS.OnClosed StatusCode Reason bWasClean
          (ServerAMS.Reached Api Json DSId Url Interval Actions)).1
          = ServerAMS.Reached Api Json DSId Url Interval Actions)
    ∧ (∀ DeltaTime,
        ServerAMS.IsConnected Api (ServerAMS.Reached Api Json DSId Url Interval Actions)
          = false →
        ServerAMS.PeriodicHeartbeat Api DeltaTime
            (ServerAMS.Reached Api Json DSId Url Interval Actions)
          = ((ServerAMS.Reached Api Json DSId Url Interval Actions, []), true))
    ∧ (∀ A : Action σ, (∀ bForceCleanup, A ≠ Action.Disconnect bForceCleanup) →
        (ServerAMS.Reached Api Json DSId Url Interval Actions).CoreTicker ≠ [] →
        (ServerAMS.Step Api Json (ServerAMS.Reached Api Json DSId Url Interval Actions)
            A).1.CoreTicker
          = (ServerAMS.Reached Api Json DSId Url Interval Actions).CoreTicker
        ∧ (ServerAMS.Step Api Json (ServerAMS.Reached Api Json DSId Url Interval Actions)
            A).1.AMSHeartbeatTickDelegateHandle
          = (ServerAMS.Reached Api Json DSId Url Interval Actions).AMSHeartbeatTickDelegateHandle
        ∧ (ServerAMS.Step Api Json (ServerAMS.Reached Api Json DSId Url Interval Actions)
            A).1.bHeartbeatJobStarted = true) := by
  obtain ⟨h, hd⟩ := ServerAMS.HeartbeatInv_reachable Api Json DSId Url Interval Actions
  unfold ServerAMS.Reached
  generalize (ServerAMS.Run Api Json (ServerAMS.New σ DSId Url Interval) Actions).2
    = History at h ⊢
  generalize (ServerAMS.Run Api Json (ServerAMS.New σ DSId Url Interval) Actions).1 = S at h hd ⊢
  obtain ⟨Id, _, _, Socket, _, Handle, Started, D1, D2, D3, D4, Ticker, _⟩ := S
  simp only [ServerAMS.HeartbeatInv] at h hd
  subst hd
  refine ⟨?_, ?_, ?_, ?_⟩
  · intro hne
    cases Handle <;> simp_all
  · intro StatusCode Reason bWasClean
    cases D3 <;> simp [ServerAMS.OnClosed]
  · intro DeltaTime hc
    cases Socket <;> simp_all [ServerAMS.PeriodicHeartbeat, ServerAMS.SendHeartbeat,
      ServerAMS.IsConnected]
  · intro A hA hne
    cases Handle with
    | none => simp_all
    | some Hd =>
      cases Socket with
      | none => simp_all
      | some Sock =>
        cases Started with
        | false => simp_all
        | true =>
          cases A with
          | Connect =>
            simp only [ServerAMS.Step, ServerAMS.Connect]
            split
            · simp
            · simp only [Option.isNone_some, Bool.false_eq_true, if_false]
              split <;> simp
          | Disconnect b => exact absurd rfl (hA b)
          | UnbindDelegates => simp [ServerAMS.Step, ServerAMS.UnbindDelegates]
          | SetOnConnectSuccess D => simp [ServerAMS.Step, ServerAMS.SetOnConnectSuccess]
          | SetOnConnectError D => simp [ServerAMS.Step, ServerAMS.SetOnConnectError]
          | SetOnConnectionClosed D => simp [ServerAMS.Step, ServerAMS.SetOnConnectionClosed]
          | SetOnAMSDrainReceivedDelegate D =>
            cases D4 <;> simp [ServerAMS.Step, ServerAMS.SetOnAMSDrainReceivedDelegate]
          | SendReadyMessage =>
            simp only [ServerAMS.Step, ServerAMS.SendReadyMessage]
            split <;> simp
          | SendHeartbeat =>
            simp only [ServerAMS.Step, ServerAMS.SendHeartbeat]
            split <;> simp
          | PeriodicHeartbeat DeltaTime =>
            simp only [ServerAMS.Step, ServerAMS.PeriodicHeartbeat, ServerAMS.SendHeartbeat]
            split <;> simp
          | OnConnected => cases D1 <;> simp [ServerAMS.Step, ServerAMS.OnConnected]
          | OnMessage Message =>
            simp only [ServerAMS.Step, ServerAMS.OnMessage]
            split
            · simp
            · split
              · simp
              · split
                · cases D4 <;> simp
                · simp
          | OnConnectionError Error =>
            cases D2 <;> simp [ServerAMS.Step, ServerAMS.OnConnectionError]
          | OnClosed StatusCode Reason bWasClean =>
            cases D3 <;> simp [ServerAMS.Step, ServerAMS.OnClosed]
          | Transport NewSocket => simp [ServerAMS.Step]

/-- Witness for claim C15, amended: the run of the counterexample; the ticker is registered, the
socket exists and the ready message for "ds-1" is among the effects. -/
theorem Heartbeat_registration_scope_witness :
    (ServerAMS.Reached FlagSocket SampleJson "ds-1" "ws://ams" 15
        [Action.Connect, Action.Transport true, Action.OnConnected, Action.SendReadyMessage,
         Action.Transport false, Action.OnClosed 1006 "lost" false]).WebSocket.isSome = true
    ∧ Effect.WebSocketSend (ReadyMessage "ds-1")
        ∈ (ServerAMS.Run FlagSocket SampleJson (ServerAMS.New Bool "ds-1" "ws://ams" 15)
            [Action.Connect, Action.Transport true, Action.OnConnected, Action.SendReadyMessage,
             Action.Transport false, Action.OnClosed 1006 "lost" false]).2 :=
  (Heartbeat_registration_scope FlagSocket SampleJson "ds-1" "ws://ams" 15
    [Action.Connect, Action.Transport true, Action.OnConnected, Action.SendReadyMessage,
     Action.Transport false, Action.OnClosed 1006 "lost" false]).1 (by decide)

end GameServerApi
end AccelByte

namespace AccelByte
namespace Api

/-! ## Delegate slots of `Chat` -/

/-- Claim C17: for each of the eight notification kinds and all handlers A and B, setting the
delegate of that kind to A and then to B leaves that slot holding exactly B and every other
member (the slots of the other seven kinds included) as it was. -/
theorem NotifDelegate_overwrite {δ : Type} (C : Chat δ) (A B : δ) :
    Chat.SetChatNotifDelegate B (Chat.SetChatNotifDelegate A C) = { C with ChatNotif := B }
    ∧ Chat.SetAddToTopicNotifDelegate B (Chat.SetAddToTopicNotifDelegate A C) = { C with AddToTopicNotif := B }
    ∧ Chat.SetRemoveFromTopicNotifDelegate B (Chat.SetRemoveFromTopicNotifDelegate A C) = { C with RemoveFromTopicNotif := B }
    ∧ Chat.SetDeleteTopicNotifDelegate B (Chat.SetDeleteTopicNotifDelegate A C) = { C with DeleteTopicNotif := B }
    ∧ Chat.SetUpdateTopicNotifDelegate B (Chat.SetUpdateTopicNotifDelegate A C) = { C with UpdateTopicNotif := B }
    ∧ Chat.SetReadChatNotifDelegate B (Chat.SetReadChatNotifDelegate A C) = { C with ReadChatNotif := B }
    ∧ Chat.SetUserBanNotifDelegate B (Chat.SetUserBanNotifDelegate A C) = { C with UserBanNotif := B }
    ∧ Chat.SetUserUnbanNotifDelegate B (Chat.SetUserUnbanNotifDelegate A C) = { C with UserUnbanNotif := B } :=
  ⟨rfl, rfl, rfl, rfl, rfl, rfl, rfl, rfl⟩

end Api
end AccelByte

namespace AccelByte
namespace Api

/-! ## Reconnect backoff -/

theorem Connection.Step_bounds (C : BackoffSettings)
    (hC : C.InitialBackoffDelay ≤ C.MaxBackoffDelay) (S : Connection) (E : ConnectionEvent)
    (h : C.InitialBackoffDelay ≤ S.BackoffDelay ∧ S.BackoffDelay ≤ C.MaxBackoffDelay) :
    C.InitialBackoffDelay ≤ (Connection.Step C S E).BackoffDelay
      ∧ (Connection.Step C S E).BackoffDelay ≤ C.MaxBackoffDelay := by
  obtain ⟨State, Delay, Jitter, T1, T2⟩ := S
  simp only at h
  cases E with
  | Connect => cases State <;> simpa [Connection.Step, Connection.Connect] using h
  | OnConnected => simpa [Connection.Step, Connection.OnConnected] using hC
  | OnConnectionLost J =>
    cases State <;> simpa [Connection.Step, Connection.OnConnectionLost] using h
  | OnAttemptFailed J =>
    cases State <;> simp only [Connection.Step, Connection.OnAttemptFailed]
    · exact h
    · exact h
    · exact h
    · exact ⟨le_min (by omega) hC, min_le_right _ _⟩
  | Tick DeltaTime =>
    cases State <;> simp only [Connection.Step, Connection.Tick]
    · exact h
    · exact h
    · exact h
    · split
      · exact h
      · split <;> exact h

theorem Connection.Run_bounds (C : BackoffSettings)
    (hC : C.InitialBackoffDelay ≤ C.MaxBackoffDelay) (Events : List ConnectionEvent) :
    ∀ S : Connection,
      C.InitialBackoffDelay ≤ S.BackoffDelay ∧ S.BackoffDelay ≤ C.MaxBackoffDelay →
      C.InitialBackoffDelay ≤ (Connection.Run C S Events).BackoffDelay
        ∧ (Connection.Run C S Events).BackoffDelay ≤ C.MaxBackoffDelay := by
  induction Events with
  | nil => intro S h; exact h
  | cons E Rest ih =>
    intro S h
    exact ih _ (Connection.Step_bounds C hC S E h)

theorem Connection.TickAll_waiting (C : BackoffSettings) (Ticks : List Nat) :
    ∀ S : Connection, S.State = ConnectionState.Reconnecting →
      S.TimeSinceLastReconnect + Ticks.sum ≤ S.BackoffDelay + S.Jitter →
      S.TimeSinceConnectionLost + Ticks.sum ≤ C.TotalTimeout →
      Connection.TickAll C S Ticks
        = ({ S with
              TimeSinceLastReconnect := S.TimeSinceLastReconnect + Ticks.sum
              TimeSinceConnectionLost := S.TimeSinceConnectionLost + Ticks.sum }, 0) := by
  induction Ticks with
  | nil => intro S _ _ _; simp [Connection.TickAll]
  | cons d Rest ih =>
    intro S hs h1 h2
    obtain ⟨State, Delay, Jitter, T1, T2⟩ := S
    simp only at hs h1 h2
    subst hs
    simp only [List.sum_cons] at h1 h2
    have ht : Connection.Tick C d ⟨ConnectionState.Reconnecting, Delay, Jitter, T1, T2⟩
        = (⟨ConnectionState.Reconnecting, Delay, Jitter, T1 + d, T2 + d⟩, 0) := by
      have n1 : ¬ T2 + d > C.TotalTimeout := by omega
      have n2 : ¬ T1 + d > Delay + Jitter := by omega
      simp [Connection.Tick, n1, n2]
    have := ih ⟨ConnectionState.Reconnecting, Delay, Jitter, T1 + d, T2 + d⟩ rfl
      (by simp only; omega) (by simp only; omega)
    simp only [Connection.TickAll, ht, this, List.sum_cons, Nat.add_assoc, Nat.zero_add]

theorem Connection.TickAll_append (C : BackoffSettings) (Xs Ys : List Nat) :
    ∀ S : Connection,
      Connection.TickAll C S (Xs ++ Ys)
        = ((Connection.TickAll C (Connection.TickAll C S Xs).1 Ys).1,
           (Connection.TickAll C S Xs).2 + (Connection.TickAll C (Connection.TickAll C S Xs).1 Ys).2) := by
  induction Xs with
  | nil => intro S; simp [Connection.TickAll]
  | cons d Rest ih => intro S; simp [Connection.TickAll, ih, Nat.add_assoc]

/-- Two facts of the connection modelled from the spec: with the default settings and a jitter
of 1 drawn at the connection loss, one tick of 2 makes no reconnect attempt, the wait being the
delay plus the jitter; and with InitialBackoffDelay = 10 and MaxBackoffDelay = 5 (PingDelay 30,
TotalTimeout 60) the delay starts at 10. -/
theorem Backoff_jitter_example :
    BackoffSettings.Default.InitialBackoffDelay < [2].sum
    ∧ (Connection.TickAll BackoffSettings.Default
        (Connection.OnConnectionLost 1
          (Connection.OnConnected BackoffSettings.Default
            (Connection.New BackoffSettings.Default))) [2]).2 = 0
    ∧ (Connection.New (BackoffSettings.mk 30 10 5 60)).BackoffDelay = 10
    ∧ (BackoffSettings.mk 30 10 5 60).MaxBackoffDelay = 5 := by
  decide

/-- The backoff of the connection modelled from the spec, for settings with
InitialBackoffDelay ≤ MaxBackoffDelay: in every state reached from a new connection the backoff
delay is at least InitialBackoffDelay and at most MaxBackoffDelay; a failed attempt sets it to
min(2 * previous, MaxBackoffDelay); and after the loss of an established connection the first
tick sequence whose accumulated time passes InitialBackoffDelay plus the jitter drawn for that
wait, within TotalTimeout, makes exactly one reconnect attempt, and none is made before. -/
theorem Backoff_bounded (C : BackoffSettings)
    (hC : C.InitialBackoffDelay ≤ C.MaxBackoffDelay) :
    (∀ Events : List ConnectionEvent,
        C.InitialBackoffDelay ≤ (Connection.Run C (Connection.New C) Events).BackoffDelay
        ∧ (Connection.Run C (Connection.New C) Events).BackoffDelay ≤ C.MaxBackoffDelay)
    ∧ (∀ (S : Connection) (Jitter : Nat), S.State = ConnectionState.Reconnecting →
        (Connection.OnAttemptFailed C Jitter S).BackoffDelay
          = min (2 * S.BackoffDelay) C.MaxBackoffDelay)
    ∧ (∀ (S : Connection) (Jitter : Nat) (Before : List Nat) (Last : Nat),
        Before.sum ≤ C.InitialBackoffDelay + Jitter →
        C.InitialBackoffDelay + Jitter < Before.sum + Last →
        Before.sum + Last ≤ C.TotalTimeout →
        (Connection.TickAll C
            (Connection.OnConnectionLost Jitter (Connection.OnConnected C S)) Before).2 = 0
        ∧ (Connection.TickAll C
            (Connection.OnConnectionLost Jitter (Connection.OnConnected C S))
            (Before ++ [Last])).2 = 1) := by
  refine ⟨?_, ?_, ?_⟩
  · intro Events
    exact Connection.Run_bounds C hC Events _ ⟨le_refl _, hC⟩
  · intro S Jitter hs
    obtain ⟨State, Delay, J, T1, T2⟩ := S
    simp only at hs
    subst hs
    rfl
  · intro S Jitter Before Last h1 h2 h3
    have hw := Connection.TickAll_waiting C Before
      (Connection.OnConnectionLost Jitter (Connection.OnConnected C S)) rfl
      (by simp [Connection.OnConnectionLost, Connection.OnConnected]; omega)
      (by simp [Connection.OnConnectionLost, Connection.OnConnected]; omega)
    refine ⟨by rw [hw], ?_⟩
    rw [Connection.TickAll_append, hw]
    have n1 : ¬ Before.sum + Last > C.TotalTimeout := by omega
    simp [Connection.TickAll, Connection.Tick, Connection.OnConnectionLost,
      Connection.OnConnected, n1, h2]

end Api
end AccelByte

namespace AccelByte
namespace Api

/-! ## Response and error slots of `Chat` -/

/-- The setter of the unblock-user delegates, as written in the header: it stores OnSuccess in
the unblock response slot and OnError in the block-user error slot; the unblock-user error slot
and every other member keep their value. -/
theorem SetUnblockUserResponseDelegate_eq {δ : Type} (OnSuccess OnError : δ) (C : Chat δ) :
    (Chat.SetUnblockUserResponseDelegate OnSuccess OnError C).UnblockUserResponse = OnSuccess
    ∧ (Chat.SetUnblockUserResponseDelegate OnSuccess OnError C).OnBlockUserError = OnError
    ∧ (Chat.SetUnblockUserResponseDelegate OnSuccess OnError C).OnUnblockUserError
        = C.OnUnblockUserError :=
  ⟨rfl, rfl, rfl⟩

/-- Claim C23, the code at a failing input: on a `Chat` whose slots all hold the delegate 0,
SetUnblockUserResponseDelegate(1, 2) stores 1 in the unblock response slot, leaves the
unblock-user error slot at 0 instead of storing 2 there, and overwrites the block-user error slot
with 2. -/
theorem SetUnblockUserResponseDelegate_failing_input :
    (Chat.SetUnblockUserResponseDelegate 1 2 (Chat.Uniform 0)).UnblockUserResponse = 1
    ∧ (Chat.SetUnblockUserResponseDelegate 1 2 (Chat.Uniform 0)).OnUnblockUserError = 0
    ∧ (Chat.SetUnblockUserResponseDelegate 1 2 (Chat.Uniform 0)).OnBlockUserError = 2
    ∧ (Chat.Uniform 0 : Chat Nat).OnBlockUserError = 0 := by
  decide

/-- Claim C29: for every response kind other than unblock-user, the setter of that kind stores
OnSuccess in the response slot of the kind and OnError in the error slot of the kind, and leaves
every other member (response slots, error slots, notification slots, connection delegates and
pending maps) as it was. -/
theorem SetResponseDelegate_own_slots {δ : Type} (OnSuccess OnError : δ) (C : Chat δ) :
    Chat.SetRefreshTokenResponseDelegate OnSuccess OnError C
        = { C with RefreshTokenResponse := OnSuccess, OnRefreshTokenError := OnError }
    ∧ Chat.SetCreateTopicResponseDelegate OnSuccess OnError C
        = { C with CreateTopicResponse := OnSuccess, OnCreateTopicError := OnError }
    ∧ Chat.SetUpdateTopicResponseDelegate OnSuccess OnError C
        = { C with UpdateTopicResponse := OnSuccess, OnUpdateTopicError := OnError }
    ∧ Chat.SetDeleteTopicResponseDelegate OnSuccess OnError C
        = { C with DeleteTopicResponse := OnSuccess, OnDeleteTopicError := OnError }
    ∧ Chat.SetAddUserToTopicResponseDelegate OnSuccess OnError C
        = { C with AddUserToTopicResponse := OnSuccess, OnAddUserToTopicError := OnError }
    ∧ Chat.SetRemoveUserFromTopicResponseDelegate OnSuccess OnError C
        = { C with RemoveUserFromTopicResponse := OnSuccess, OnRemoveUserFromTopicError := OnError }
    ∧ Chat.SetJoinTopicResponseDelegate OnSuccess OnError C
        = { C with JoinTopicResponse := OnSuccess, OnJoinTopicError := OnError }
    ∧ Chat.SetQuitTopicResponseDelegate OnSuccess OnError C
        = { C with QuitTopicResponse := OnSuccess, OnQuitTopicError := OnError }
    ∧ Chat.SetSendChatResponseDelegate OnSuccess OnError C
        = { C with SendChatResponse := OnSuccess, OnSendChatError := OnError }
    ∧ Chat.SetQueryTopicResponseDelegate OnSuccess OnError C
        = { C with QueryTopicResponse := OnSuccess, OnQueryTopicError := OnError }
    ∧ Chat.SetQueryTopicByIdResponseDelegate OnSuccess OnError C
        = { C with QueryTopicByIdResponse := OnSuccess, OnQueryTopicByIdError := OnError }
    ∧ Chat.SetQueryPersonalTopicResponseDelegate OnSuccess OnError C
        = { C with QueryPersonalTopicResponse := OnSuccess, OnQueryPersonalTopicError := OnError }
    ∧ Chat.SetQueryGroupTopicResponseDelegate OnSuccess OnError C
        = { C with QueryGroupTopicResponse := OnSuccess, OnQueryGroupTopicError := OnError }
    ∧ Chat.SetQueryPublicTopicResponseDelegate OnSuccess OnError C
        = { C with QueryPublicTopicResponse := OnSuccess, OnQueryPublicTopicError := OnError }
    ∧ Chat.SetQueryChatResponseDelegate OnSuccess OnError C
        = { C with QueryChatResponse := OnSuccess, OnQueryChatError := OnError }
    ∧ Chat.SetReadChatResponseDelegate OnSuccess OnError C
        = { C with ReadChatResponse := OnSuccess, OnReadChatError := OnError }
    ∧ Chat.SetBlockUserResponseDelegate OnSuccess OnError C
        = { C with BlockUserResponse := OnSuccess, OnBlockUserError := OnError } :=
  ⟨rfl, rfl, rfl, rfl, rfl, rfl, rfl, rfl, rfl, rfl, rfl, rfl, rfl, rfl, rfl, rfl, rfl⟩

end Api
end AccelByte

namespace AccelByte
namespace Api

/-! ## Giving up the reconnect sequence -/

theorem Connection.TickAll_of_not_reconnecting (C : BackoffSettings) (Ticks : List Nat) :
    ∀ S : Connection, S.State ≠ ConnectionState.Reconnecting →
      Connection.TickAll C S Ticks = (S, 0) := by
  induction Ticks with
  | nil => intro S _; rfl
  | cons d Rest ih =>
    intro S hs
    have ht : Connection.Tick C d S = (S, 0) := by
      obtain ⟨State, Delay, Jitter, T1, T2⟩ := S
      cases State <;> simp_all [Connection.Tick]
    simp [Connection.TickAll, ht, ih S hs]

theorem Connection.Run_stays_disconnected (C : BackoffSettings) (Events : List ConnectionEvent) :
    ∀ S : Connection,
      (∀ E ∈ Events, E ≠ ConnectionEvent.Connect ∧ E ≠ ConnectionEvent.OnConnected) →
      S.State = ConnectionState.Disconnected →
      (Connection.Run C S Events).State = ConnectionState.Disconnected := by
  induction Events with
  | nil => intro S _ h; exact h
  | cons E Rest ih =>
    intro S hE h
    have hHead := hE E (List.mem_cons_self _ _)
    have hstep : (Connection.Step C S E).State = ConnectionState.Disconnected := by
      obtain ⟨State, Delay, Jitter, T1, T2⟩ := S
      simp only at h
      subst h
      cases E <;> simp_all [Connection.Step, Connection.OnConnectionLost,
        Connection.OnAttemptFailed, Connection.Tick]
    exact ih _ (fun X hX => hE X (List.mem_cons_of_mem _ hX)) hstep

theorem Connection.Run_lost (C : BackoffSettings) (Events : List ConnectionEvent) :
    ∀ S : Connection,
      (∀ E ∈ Events, E ≠ ConnectionEvent.Connect ∧ E ≠ ConnectionEvent.OnConnected) →
      S.State = ConnectionState.Reconnecting →
      S.TimeSinceConnectionLost ≤ C.TotalTimeout →
      (Connection.Run C S Events).State = ConnectionState.Disconnected
      ∨ ((Connection.Run C S Events).State = ConnectionState.Reconnecting
          ∧ S.TimeSinceConnectionLost + ConnectionEvent.TickTime Events ≤ C.TotalTimeout) := by
  induction Events with
  | nil => intro S _ h1 h3; exact Or.inr ⟨h1, by simpa [ConnectionEvent.TickTime] using h3⟩
  | cons E Rest ih =>
    intro S hE h1 h3
    have hRest : ∀ X ∈ Rest, X ≠ ConnectionEvent.Connect ∧ X ≠ ConnectionEvent.OnConnected :=
      fun X hX => hE X (List.mem_cons_of_mem _ hX)
    have hHead := hE E (List.mem_cons_self _ _)
    obtain ⟨State, Delay, Jitter, T1, T2⟩ := S
    simp only at h1 h3
    subst h1
    cases E with
    | Connect => exact absurd rfl hHead.1
    | OnConnected => exact absurd rfl hHead.2
    | OnConnectionLost J =>
      have := ih ⟨ConnectionState.Reconnecting, Delay, Jitter, T1, T2⟩ hRest rfl h3
      simpa [Connection.Run, Connection.Step, Connection.OnConnectionLost,
        ConnectionEvent.TickTime] using this
    | OnAttemptFailed J =>
      have := ih ⟨ConnectionState.Reconnecting, min (2 * Delay) C.MaxBackoffDelay, J, T1, T2⟩
        hRest rfl h3
      simpa [Connection.Run, Connection.Step, Connection.OnAttemptFailed,
        ConnectionEvent.TickTime] using this
    | Tick d =>
      by_cases hover : T2 + d > C.TotalTimeout
      · left
        have := Connection.Run_stays_disconnected C Rest
          ⟨ConnectionState.Disconnected, Delay, Jitter, T1 + d, T2 + d⟩ hRest rfl
        simpa [Connection.Run, Connection.Step, Connection.Tick, hover] using this
      · by_cases hwait : T1 + d > Delay + Jitter
        · have := ih ⟨ConnectionState.Reconnecting, Delay, Jitter, 0, T2 + d⟩ hRest rfl
            (by simp only; omega)
          simpa [Connection.Run, Connection.Step, Connection.Tick, hover, hwait,
            ConnectionEvent.TickTime, Nat.add_assoc] using this
        · have := ih ⟨ConnectionState.Reconnecting, Delay, Jitter, T1 + d, T2 + d⟩ hRest rfl
            (by simp only; omega)
          simpa [Connection.Run, Connection.Step, Connection.Tick, hover, hwait,
            ConnectionEvent.TickTime, Nat.add_assoc] using this

/-- Claim C21: after a connection loss, once the tick time accumulated since the loss exceeds
TotalTimeout (whatever failed attempts and further loss events came in between, as long as the
caller did not call Connect and no connection was established), the connection has given up: it
is disconnected, and every later sequence of ticks invokes connect on the transport zero times
and leaves the connection as it is.  Only an explicit Connect takes it out of that state. -/
theorem GiveUp_is_terminal (C : BackoffSettings) (S : Connection) (Jitter : Nat)
    (Before : List ConnectionEvent) (Later : List Nat)
    (hBefore : ∀ E ∈ Before, E ≠ ConnectionEvent.Connect ∧ E ≠ ConnectionEvent.OnConnected)
    (hTime : C.TotalTimeout < ConnectionEvent.TickTime Before) :
    (Connection.Run C (Connection.OnConnectionLost Jitter (Connection.OnConnected C S))
        Before).State = ConnectionState.Disconnected
    ∧ Connection.TickAll C
        (Connection.Run C (Connection.OnConnectionLost Jitter (Connection.OnConnected C S))
          Before) Later
      = (Connection.Run C (Connection.OnConnectionLost Jitter (Connection.OnConnected C S))
          Before, 0)
    ∧ (Connection.Connect
        (Connection.Run C (Connection.OnConnectionLost Jitter (Connection.OnConnected C S))
          Before)).State = ConnectionState.Connecting := by
  have h := Connection.Run_lost C Before
    (Connection.OnConnectionLost Jitter (Connection.OnConnected C S)) hBefore rfl
    (by simp [Connection.OnConnectionLost, Connection.OnConnected])
  have hd : (Connection.Run C (Connection.OnConnectionLost Jitter (Connection.OnConnected C S))
      Before).State = ConnectionState.Disconnected := by
    rcases h with h | ⟨_, h⟩
    · exact h
    · simp [Connection.OnConnectionLost, Connection.OnConnected] at h
      omega
  refine ⟨hd, ?_, ?_⟩
  · exact Connection.TickAll_of_not_reconnecting C Later _ (by rw [hd]; decide)
  · simp [Connection.Connect, hd]

/-- Witness for claim C21: the default settings (TotalTimeout = 60); after the connection loss
come a tick of 2, a failed attempt and a tick of 59; three later ticks of 100 invoke connect zero
times. -/
theorem GiveUp_is_terminal_witness :
    (Connection.TickAll BackoffSettings.Default
        (Connection.Run BackoffSettings.Default
          (Connection.OnConnectionLost 0
            (Connection.OnConnected BackoffSettings.Default
              (Connection.New BackoffSettings.Default)))
          [ConnectionEvent.Tick 2, ConnectionEvent.OnAttemptFailed 0, ConnectionEvent.Tick 59])
        [100, 100, 100]).2 = 0 :=
  congrArg Prod.snd
    (GiveUp_is_terminal BackoffSettings.Default (Connection.New BackoffSettings.Default) 0
      [ConnectionEvent.Tick 2, ConnectionEvent.OnAttemptFailed 0, ConnectionEvent.Tick 59]
      [100, 100, 100] (by decide) (by decide)).2.1

end Api
end AccelByte

namespace AccelByte
namespace Api

/-! ## The envelope markers do not overlap -/

/-- Claim C28: with the markers of the Chat client, "CaSr" and "CaEd", every string that begins
with the start marker and ends with the end marker has length at least 8, so the two markers
never overlap in a frame and the framer reads every frame that carries both markers as a
complete frame. -/
theorem Envelope_markers_disjoint (InMessage : List Char)
    (hStart : WsEnvelopeStart <+: InMessage) (hEnd : WsEnvelopeEnd <:+ InMessage) :
    8 ≤ InMessage.length
    ∧ ClassifyFrame InMessage WsEnvelopeStart WsEnvelopeEnd = FrameKind.Complete := by
  have hlen : 8 ≤ InMessage.length := by
    obtain ⟨t, rfl⟩ := hStart
    rw [List.suffix_iff_eq_drop] at hEnd
    match t, hEnd with
    | [], h => simp [WsEnvelopeStart, WsEnvelopeEnd] at h
    | [a], h => simp [WsEnvelopeStart, WsEnvelopeEnd] at h
    | [a, b], h => simp [WsEnvelopeStart, WsEnvelopeEnd] at h
    | [a, b, c], h => simp [WsEnvelopeStart, WsEnvelopeEnd] at h
    | a :: b :: c :: d :: rest, _ => simp [WsEnvelopeStart]
  refine ⟨hlen, ?_⟩
  unfold ClassifyFrame
  rw [if_pos ⟨hStart, hEnd, by simpa [WsEnvelopeStart, WsEnvelopeEnd] using hlen⟩]

/-- Witness for claim C28: the frame "CaSrCaEd". -/
theorem Envelope_markers_disjoint_witness :
    8 ≤ (WsEnvelopeStart ++ WsEnvelopeEnd).length
    ∧ ClassifyFrame (WsEnvelopeStart ++ WsEnvelopeEnd) WsEnvelopeStart WsEnvelopeEnd
        = FrameKind.Complete :=
  Envelope_markers_disjoint (WsEnvelopeStart ++ WsEnvelopeEnd) (by decide) (by decide)

end Api
end AccelByte

namespace AccelByte
namespace GameServerApi

/-! ## The session REST calls `ServerSession` -/

/-- Claim C22: for every game session id, session server url, client namespace and client access
token, GetGameSessionDetails, UpdateGameSession and DeleteGameSession each dispatch exactly one
request through the HTTP transport; the three requests have the same URL, session server url ++
"/v1/public/namespaces/" ++ namespace ++ "/gamesessions/" ++ id; the verbs are GET, PATCH and
DELETE; each has the header Authorization = "Bearer " ++ token and the headers Content-Type and
Accept equal to "application/json"; and only UpdateGameSession sets a body. -/
theorem ServerSession_requests {ρ : Type} (SerializeAndRemoveEmptyValues : ρ → String)
    (S : ServerSession) (GameSessionID : String) (UpdateRequest : ρ)
    (OnSuccess OnError : Delegate) :
    ServerSession.GetGameSessionDetails S GameSessionID OnSuccess OnError
      = [{ Request :=
            { URL := S.SessionServerUrl ++ "/v1/public/namespaces/" ++ S.ClientNamespace
                ++ "/gamesessions/" ++ GameSessionID
              Verb := "GET"
              Headers := [("Authorization", "Bearer " ++ S.ClientAccessToken),
                ("Content-Type", "application/json"), ("Accept", "application/json")]
              Content := none }
           OnSuccess := OnSuccess
           OnError := OnError }]
    ∧ ServerSession.UpdateGameSession SerializeAndRemoveEmptyValues S GameSessionID UpdateRequest
        OnSuccess OnError
      = [{ Request :=
            { URL := S.SessionServerUrl ++ "/v1/public/namespaces/" ++ S.ClientNamespace
                ++ "/gamesessions/" ++ GameSessionID
              Verb := "PATCH"
              Headers := [("Authorization", "Bearer " ++ S.ClientAccessToken),
                ("Content-Type", "application/json"), ("Accept", "application/json")]
              Content := some (SerializeAndRemoveEmptyValues UpdateRequest) }
           OnSuccess := OnSuccess
           OnError := OnError }]
    ∧ ServerSession.DeleteGameSession S GameSessionID OnSuccess OnError
      = [{ Request :=
            { URL := S.SessionServerUrl ++ "/v1/public/namespaces/" ++ S.ClientNamespace
                ++ "/gamesessions/" ++ GameSessionID
              Verb := "DELETE"
              Headers := [("Authorization", "Bearer " ++ S.ClientAccessToken),
                ("Content-Type", "application/json"), ("Accept", "application/json")]
              Content := none }
           OnSuccess := OnSuccess
           OnError := OnError }] := by
  refine ⟨?_, ?_, ?_⟩ <;>
    simp [ServerSession.GetGameSessionDetails, ServerSession.UpdateGameSession,
      ServerSession.DeleteGameSession, FHttpRequest.SetHeader, FHttpRequest.SetVerb,
      FHttpRequest.SetURL, FHttpRequest.SetContentAsString, FHttpRequest.Create]

/-- The request of GetGameSessionDetails for session "gs-1" in namespace "game" on
"https://session" with token "tok", and its headers read back by name. -/
theorem ServerSession_requests_example :
    ServerSession.GetGameSessionDetails ⟨"tok", "game", "https://session"⟩ "gs-1" none none
      = [{ Request :=
            { URL := "https://session/v1/public/namespaces/game/gamesessions/gs-1"
              Verb := "GET"
              Headers := [("Authorization", "Bearer tok"), ("Content-Type", "application/json"),
                ("Accept", "application/json")]
              Content := none }
           OnSuccess := none
           OnError := none }]
    ∧ (ServerSession.GetGameSessionDetails ⟨"tok", "game", "https://session"⟩ "gs-1" none
        none).map (fun P => P.Request.GetHeader "Authorization") = [some "Bearer tok"]
    ∧ (ServerSession.GetGameSessionDetails ⟨"tok", "game", "https://session"⟩ "gs-1" none
        none).map (fun P => P.Request.GetHeader "Accept") = [some "application/json"] := by
  decide

end GameServerApi
end AccelByte

namespace AccelByte
namespace GameServerApi

/-! ## `ServerAMS`: empty DS id, ready message, heartbeat, unbinding -/

/-- Claim C24: in every state in which the configured DS id is empty, Connect creates no
transport socket, calls Connect on no socket (also when a socket exists and is not connected) and
leaves the state unchanged. -/
theorem Connect_empty_DSId {σ : Type} (Api : WebSocketApi σ) (S : ServerAMS σ)
    (hDSId : S.DSId.isEmpty = true) :
    ServerAMS.Connect Api S = (S, []) := by
  simp [ServerAMS.Connect, hDSId]

/-- Witness for claim C24: a handler with an empty DS id whose socket exists and is not
connected. -/
theorem Connect_empty_DSId_witness :
    ServerAMS.Connect FlagSocket
        { ServerAMS.New Bool "" "ws://ams" 15 with WebSocket := some false }
      = ({ ServerAMS.New Bool "" "ws://ams" 15 with WebSocket := some false }, []) :=
  Connect_empty_DSId FlagSocket _ (by decide)

/-- Claim C25: for every state, SendReadyMessage does nothing when the handler is not connected;
when it is connected it sends exactly one text message, the text `{"ready":{"dsid":"d"}}` with
the DS id d inserted as it is, and makes one registration with the core ticker only if none was
started (whatever the period); and in
every state reached from a new handler in which the handler is connected, afterwards
bHeartbeatJobStarted is true and exactly one heartbeat ticker is registered. -/
theorem SendReadyMessage_spec {σ ω : Type} (Api : WebSocketApi σ) (Json : JsonApi ω)
    (S : ServerAMS σ) (DSId Url : String) (Interval : Nat) (Actions : List (Action σ)) :
    (ServerAMS.IsConnected Api S = false → ServerAMS.SendReadyMessage Api S = (S, []))
    ∧ (ServerAMS.IsConnected Api S = true →
        ∃ Period, (ServerAMS.SendReadyMessage Api S).2
          = Effect.WebSocketSend ("\x7b\"ready\":\x7b\"dsid\":\"" ++ S.DSId ++ "\"\x7d\x7d")
              :: (if S.bHeartbeatJobStarted = true then []
                  else [Effect.AddTicker S.NextTickerHandle Period]))
    ∧ (ServerAMS.IsConnected Api (ServerAMS.Reached Api Json DSId Url Interval Actions) = true →
        (ServerAMS.SendReadyMessage Api
          (ServerAMS.Reached Api Json DSId Url Interval Actions)).1.bHeartbeatJobStarted = true
        ∧ (ServerAMS.SendReadyMessage Api
          (ServerAMS.Reached Api Json DSId Url Interval Actions)).1.CoreTicker.length = 1) := by
  refine ⟨?_, ?_, ?_⟩
  · intro h
    cases hs : S.WebSocket <;> simp_all [ServerAMS.SendReadyMessage, ServerAMS.IsConnected]
  · intro h
    refine ⟨S.AMSHeartbeatInterval, ?_⟩
    cases hs : S.WebSocket <;> cases hb : S.bHeartbeatJobStarted <;>
      simp_all [ServerAMS.SendReadyMessage, ServerAMS.IsConnected, ReadyMessage]
  · obtain ⟨h, _⟩ := ServerAMS.HeartbeatInv_reachable Api Json DSId Url Interval Actions
    unfold ServerAMS.Reached
    generalize (ServerAMS.Run Api Json (ServerAMS.New σ DSId Url Interval) Actions).2
      = History at h
    generalize (ServerAMS.Run Api Json (ServerAMS.New σ DSId Url Interval) Actions).1 = R at h ⊢
    obtain ⟨_, _, _, Socket, _, Handle, Started, _, _, _, _, Ticker, _⟩ := R
    simp only [ServerAMS.HeartbeatInv] at h
    intro hc
    cases Socket <;> cases Handle <;> cases Started <;>
      simp_all [ServerAMS.SendReadyMessage, ServerAMS.IsConnected]

/-- Witness for claim C25: a handler with DS id "ds-1" that connected and was connected by the
transport: SendReadyMessage afterwards leaves bHeartbeatJobStarted true and exactly one ticker
registered. -/
theorem SendReadyMessage_spec_witness :
    (ServerAMS.SendReadyMessage FlagSocket
        (ServerAMS.Reached FlagSocket SampleJson "ds-1" "ws://ams" 15
          [Action.Connect, Action.Transport true])).1.bHeartbeatJobStarted = true
    ∧ (ServerAMS.SendReadyMessage FlagSocket
        (ServerAMS.Reached FlagSocket SampleJson "ds-1" "ws://ams" 15
          [Action.Connect, Action.Transport true])).1.CoreTicker.length = 1 :=
  (SendReadyMessage_spec FlagSocket SampleJson (ServerAMS.New Bool "ds-1" "ws://ams" 15)
    "ds-1" "ws://ams" 15 [Action.Connect, Action.Transport true]).2.2 (by decide)

/-- The ready message sent by a connected handler with DS id "ds-1" is the first of the two
effects of the call. -/
theorem SendReadyMessage_example :
    (ServerAMS.SendReadyMessage FlagSocket
        (ServerAMS.Reached FlagSocket SampleJson "ds-1" "ws://ams" 15
          [Action.Connect, Action.Transport true])).2.head?
      = some (Effect.WebSocketSend "\x7b\"ready\":\x7b\"dsid\":\"ds-1\"\x7d\x7d")
    ∧ (ServerAMS.SendReadyMessage FlagSocket
        (ServerAMS.Reached FlagSocket SampleJson "ds-1" "ws://ams" 15
          [Action.Connect, Action.Transport true])).2.length = 2 := by
  decide

/-- Claim C26: for every DeltaTime and every state, PeriodicHeartbeat returns true; when the
handler is connected it sends exactly one text message, `{"heartbeat":{}}`, through the socket,
and otherwise it sends nothing; no member of the handler changes (the socket pointer included:
only the socket object the message went through has seen the call). -/
theorem PeriodicHeartbeat_spec {σ : Type} (Api : WebSocketApi σ) (DeltaTime : Nat)
    (S : ServerAMS σ) :
    (ServerAMS.PeriodicHeartbeat Api DeltaTime S).2 = true
    ∧ (ServerAMS.IsConnected Api S = false →
        (ServerAMS.PeriodicHeartbeat Api DeltaTime S).1 = (S, []))
    ∧ (∀ Socket, S.WebSocket = some Socket → Api.IsConnected Socket = true →
        (ServerAMS.PeriodicHeartbeat Api DeltaTime S).1
          = ({ S with WebSocket := some (Api.Send "\x7b\"heartbeat\":\x7b\x7d\x7d" Socket) },
             [Effect.WebSocketSend "\x7b\"heartbeat\":\x7b\x7d\x7d"])) := by
  refine ⟨rfl, ?_, ?_⟩
  · intro h
    cases hs : S.WebSocket <;>
      simp_all [ServerAMS.PeriodicHeartbeat, ServerAMS.SendHeartbeat, ServerAMS.IsConnected]
  · intro Socket hs hc
    simp [ServerAMS.PeriodicHeartbeat, ServerAMS.SendHeartbeat, hs, hc, HeartbeatMessage]

/-- Witness for claim C26: a new handler, which is not connected, sends nothing. -/
theorem PeriodicHeartbeat_spec_witness :
    (ServerAMS.PeriodicHeartbeat FlagSocket 15 (ServerAMS.New Bool "ds-1" "ws://ams" 15)).1
      = (ServerAMS.New Bool "ds-1" "ws://ams" 15, []) :=
  (PeriodicHeartbeat_spec FlagSocket 15 (ServerAMS.New Bool "ds-1" "ws://ams" 15)).2.1
    (by decide)

/-- Claim C27: for every state, after UnbindDelegates the connect-success, connect-error and
connection-closed delegates are unbound while every other member (the drain delegate, the
transport socket, the heartbeat registration) is as before, nothing is called, and a later
message is handled exactly as it would have been before: a registered drain delegate is still
executed by a drain message. -/
theorem UnbindDelegates_spec {σ ω : Type} (Json : JsonApi ω) (Message : String)
    (S : ServerAMS σ) :
    ServerAMS.UnbindDelegates S
      = ({ S with
            OnConnectSuccessDelegate := none
            OnConnectErrorDelegate := none
            OnConnectionClosedDelegate := none }, [])
    ∧ (ServerAMS.OnMessage Json Message (ServerAMS.UnbindDelegates S).1).2
        = (ServerAMS.OnMessage Json Message S).2 := by
  refine ⟨rfl, ?_⟩
  simp only [ServerAMS.OnMessage, ServerAMS.UnbindDelegates]
  split
  · rfl
  · split
    · rfl
    · split
      · cases h : S.OnAMSDrainReceivedDelegate <;> simp
      · rfl

/-- A drain delegate bound to 8 before UnbindDelegates is executed by the drain message that
arrives afterwards, while the connected, error and closed events execute nothing any more. -/
theorem UnbindDelegates_example :
    (ServerAMS.Run FlagSocket SampleJson (ServerAMS.New Bool "ds-1" "ws://ams" 15)
        [Action.SetOnConnectSuccess (some 5), Action.SetOnConnectError (some 6),
         Action.SetOnConnectionClosed (some 7), Action.SetOnAMSDrainReceivedDelegate (some 8),
         Action.UnbindDelegates, Action.OnConnected, Action.OnConnectionError "refused",
         Action.OnClosed 1006 "lost" false,
         Action.OnMessage "\x7b\"drain\":\x7b\x7d\x7d"]).2
      = [Effect.ExecuteAMSDrainReceived 8] := by
  decide

end GameServerApi
end AccelByte

namespace AccelByte
namespace Api

/-! ## The message handler of `Chat` -/

/-- The same client on messages that do parse: the response to "id-1" invokes the pending
success delegate 5 and empties the send-chat map, and a chat notification invokes the chat
notification delegate. -/
theorem HandleMessage_examples :
    (Chat.HandleMessage SampleParse
        { Chat.Uniform 0 with
            ParsingError := 9
            MessageIdResponseMap :=
              Send (PendingMaps.Empty Nat) ⟨ResponseKind.SendChat, "id-1", 5⟩ }
        "response").Invoked = [Invocation.Success 5 "sent"]
    ∧ (Chat.HandleMessage SampleParse
        { Chat.Uniform 0 with
            ParsingError := 9
            MessageIdResponseMap :=
              Send (PendingMaps.Empty Nat) ⟨ResponseKind.SendChat, "id-1", 5⟩ }
        "response").After.MessageIdResponseMap ResponseKind.SendChat = []
    ∧ (Chat.HandleMessage SampleParse
        { Chat.Uniform 0 with ChatNotif := 7 } "notification").Notified = [(7, "hello")] := by
  decide

end Api
end AccelByte
